import Mathlib

/-!
# obs-midi: routing and dispatch engine

A shallow embedding of the MIDI agent of obs-midi (`src/src/midi-agent.cpp`),
of the command registry and some command bodies
(`src/src/obs-controller.cpp`) and of saving from the configuration window
(`src/forms/configwindow.cpp`), followed by theorems about inbound dispatch
(`HandleInput`, `exe_midi_hook_if_exists`), the outbound matcher
(`get_midi_hook_if_exists`), application-event handling (`handle_obs_event`,
`rename_source`, `remove_source`, `set_current_volumes`), the output port
(`send_message_to_midi_device`, `open_midi_input_port`,
`open_midi_output_port`), the registry (`make_map`, `make_action`), the
command bodies (`SetVolume`, `ToggleMute`, `SetPreviewScene`,
`TransitionToProgram`) and saving and loading (`GetData`, `Load`,
`ConfigWindow::save`).

Conventions of the embedding.

* C++ `int` fields are `Int`, `QString` is `String`, `std::optional<int>` is
  `Option Int`, a `QVector<MidiHook *>` is a `List MidiHook` in vector order.
* A member function becomes a function from the state it reads to the state it
  leaves, together with the list of externally visible effects it performed,
  in the order they happened (`Effect`).
* The controlled application is outside the repository: its state is a type
  parameter `σ`, and running a command body against it is a parameter
  `execute`.
* Where C++ leaves a step undefined, a function that reaches it through a null
  pointer has the result `none`, and the value read from an empty
  `std::optional` is a parameter of the function that reads it (`unset`).
* An argument passed as `uint8_t` is taken modulo 256.
-/

namespace ObsMidi

/-! ## Data model -/

/-- A normalised MIDI message (`MidiMessage`): the fields the agent reads and
writes. -/
structure MidiMessage where
  message_type : String
  NORC : Int
  channel : Int
  value : Int
  device_name : String
  deriving DecidableEq, Repr

/-- One binding of a MIDI trigger to a command (`MidiHook`): the trigger
fields and the command parameters read by `midi-agent.cpp` and
`obs-controller.cpp`. -/
structure MidiHook where
  message_type : String
  norc : Int
  channel : Int
  value : Option Int
  value_as_filter : Bool
  action : String
  scene : String
  source : String
  audio_source : String
  media_source : String
  filter : String
  transition : String
  profile : String
  scene_collection : String
  hotkey : String
  string_override : String
  int_override : Option Int
  duration : Option Int
  range_min : Option Int
  range_max : Option Int
  deriving DecidableEq, Repr

/-- A value stored in an `obs_data_t` object. -/
inductive obs_data_item where
  | string (s : String)
  | double (q : Rat)
  | bool (b : Bool)
  deriving DecidableEq, Repr

/-- An `obs_data_t` object: settings keyed by name. -/
abbrev obs_data := List (String × obs_data_item)

/-- The libobs getter `obs_data_get_string`: the string stored under `name`,
and the empty string when the key is absent or holds another type. -/
def obs_data_get_string (data : obs_data) (name : String) : String :=
  match data.lookup name with
  | some (obs_data_item.string s) => s
  | _ => ""

/-- The libobs getter `obs_data_get_double`: `0` when the key is absent. -/
def obs_data_get_double (data : obs_data) (name : String) : Rat :=
  match data.lookup name with
  | some (obs_data_item.double q) => q
  | _ => 0

/-- The libobs getter `obs_data_get_bool`: `false` when the key is absent. -/
def obs_data_get_bool (data : obs_data) (name : String) : Bool :=
  match data.lookup name with
  | some (obs_data_item.bool b) => b
  | _ => false

/-- A state-change notification of the controlled application (`RpcEvent`). -/
structure RpcEvent where
  updateType : String
  additionalFields : obs_data
  deriving DecidableEq, Repr

/-- An indicator message handed to the control surface by the feedback
helpers of `macro-helpers.h`. -/
inductive Feedback where
  | off (message : MidiMessage)
  | on (message : MidiMessage)
  | volume (message : MidiMessage) (vol : Rat)
  deriving DecidableEq, Repr

/-- What an agent does to the world outside itself, in the order it does it. -/
inductive Effect where
  /-- The signal `broadcast_midi_message(message)`. -/
  | broadcast (message : MidiMessage)
  /-- The call `hook->EXE()`, with the hook as it stands when it is called. -/
  | EXE (hook : MidiHook)
  /-- A diagnostic line for an error raised by a command. -/
  | diagnostic (error : String)
  /-- A feedback message for the control surface. -/
  | feedback (f : Feedback)
  /-- The call `GetConfig()->Save()`. -/
  | Save
  /-- The call `GetDeviceManager()->reload()`. -/
  | reload
  deriving DecidableEq, Repr

/-- The process-wide flags and indices of class `state`. -/
structure state where
  previous_scene_norc : Int
  previous_preview_scene_norc : Int
  closing : Bool
  transitioning : Bool
  deriving DecidableEq, Repr

/-- The fields of a `MidiAgent`. -/
structure MidiAgent where
  midi_input_name : String
  midi_output_name : String
  input_port : Int
  output_port : Int
  enabled : Bool
  bidirectional : Bool
  connected : Bool
  sending : Bool
  loading : Bool
  midiHooks : List MidiHook
  deriving DecidableEq, Repr

/-! ## Commands -/

/-- What running one command body (`Actions::execute` of the class registered
for the hook's action) leaves behind: the value it threw, if any, the hook's
`scene` (the only hook field a command body of `obs-controller.cpp` assigns,
in `TransitionToProgram::execute`), and the controlled application. -/
structure Outcome (σ : Type) where
  thrown : Option String
  scene : String
  app : σ

/-- Modelled from the spec: `MidiHook::EXE` (`midi-hook.cpp` is not under
`src/`). It "resolves and invokes the corresponding Command with that Binding
as context, synchronously"; "exceptions raised by a Command are caught at this
boundary and downgraded to a diagnostic". The result is the hook after the
call, the application after the call, and the effects: the call itself, then
the diagnostic if the command threw. -/
def MidiHook.EXE {σ : Type} (execute : MidiHook → σ → Outcome σ) (hook : MidiHook) (app : σ) :
    MidiHook × σ × List Effect :=
  let out := execute hook app
  let hook' := { hook with scene := out.scene }
  match out.thrown with
  | none => (hook', out.app, [Effect.EXE hook])
  | some error => (hook', out.app, [Effect.EXE hook, Effect.diagnostic error])

/-! ## Inbound dispatch -/

/-- The trigger test of `exe_midi_hook_if_exists` (its outer `if`): message
type, note-or-controller number and channel all agree. -/
def trigger_matches (midiHook : MidiHook) (message : MidiMessage) : Bool :=
  midiHook.message_type == message.message_type && midiHook.norc == message.NORC &&
    midiHook.channel == message.channel

/-- One iteration of the loop of `MidiAgent::exe_midi_hook_if_exists`. With
`value_as_filter` the hook runs when `message->value == *midiHook->value`:
`*midiHook->value` reads the storage of the optional without testing that it
holds a value. For a hook that holds none C++ leaves that read undefined; what
it yields for the hook is the argument `unset`. Without `value_as_filter` the
message value is stored first. -/
def exe_midi_hook_step {σ : Type} (execute : MidiHook → σ → Outcome σ) (unset : MidiHook → Int)
    (message : MidiMessage) (midiHook : MidiHook) (app : σ) : MidiHook × σ × List Effect :=
  if trigger_matches midiHook message then
    if midiHook.value_as_filter then
      if message.value = midiHook.value.getD (unset midiHook) then
        MidiHook.EXE execute midiHook app
      else (midiHook, app, [])
    else
      MidiHook.EXE execute { midiHook with value := some message.value } app
  else (midiHook, app, [])

/-- The loop of `MidiAgent::exe_midi_hook_if_exists` over the hook vector, in
vector order. -/
def exe_midi_hook_if_exists {σ : Type} (execute : MidiHook → σ → Outcome σ)
    (unset : MidiHook → Int) (message : MidiMessage) :
    List MidiHook → σ → List MidiHook × σ × List Effect
  | [], app => ([], app, [])
  | midiHook :: rest, app =>
    let r := exe_midi_hook_step execute unset message midiHook app
    let rs := exe_midi_hook_if_exists execute unset message rest r.2.1
    (r.1 :: rs.1, rs.2.1, r.2.2 ++ rs.2.2)

/-- The function `MidiAgent::HandleInput`. The argument `message` is the
incoming message as `MidiMessage::set_message` normalises it. -/
def HandleInput {σ : Type} (execute : MidiHook → σ → Outcome σ) (unset : MidiHook → Int)
    (self : MidiAgent) (message : MidiMessage) (app : σ) : MidiAgent × σ × List Effect :=
  if !self.enabled then (self, app, [])
  else
    let x : MidiMessage := { message with device_name := self.midi_input_name }
    let r := exe_midi_hook_if_exists execute unset x self.midiHooks app
    ({ self with sending := true, midiHooks := r.1 }, r.2.1, Effect.broadcast x :: r.2.2)

/-! ## Command kinds and event kinds -/

/-- The enumeration `ActionsClass::Actions`: the enumerators named by the
case labels of `MidiAgent::get_midi_hook_if_exists(const RpcEvent &)`, in
the order of the labels. -/
inductive ActionsClass.Actions where
  | Set_Volume
  | Toggle_Mute
  | Do_Transition
  | Set_Preview_Scene
  | Set_Current_Scene
  | Toggle_Start_Stop_Recording
  | Start_Recording
  | Stop_Recording
  | Toggle_Start_Stop_Streaming
  | Start_Streaming
  | Stop_Streaming
  | Disable_Preview
  | Disable_Source_Filter
  | Enable_Preview
  | Enable_Source_Filter
  | Move_T_Bar
  | Next_Media
  | Pause_Recording
  | Play_Pause_Media
  | Previous_Media
  | Reload_Browser_Source
  | Reset_Scene_Item
  | Reset_Stats
  | Restart_Media
  | Resume_Recording
  | Save_Replay_Buffer
  | Scrub_Media
  | Set_Audio_Monitor_Type
  | Set_Browser_Source_URL
  | Set_Current_Profile
  | Set_Current_Scene_Collection
  | Set_Current_Transition
  | Set_Gain_Filter
  | Set_Media_Time
  | Set_Mute
  | Set_Opacity
  | Set_Scene_Item_Crop
  | Set_Scene_Item_Position
  | Set_Scene_Item_Render
  | Set_Scene_Item_Transform
  | Set_Scene_Transition_Override
  | Set_Source_Filter_Visibility
  | Set_Source_Name
  | Set_Source_Position
  | Set_Source_Rotation
  | Set_Source_Scale
  | Set_Source_Settings
  | Set_Sync_Offset
  | Set_Text_GDIPlus_Text
  | Set_Transition_Duration
  | Start_Replay_Buffer
  | Stop_Media
  | Stop_Replay_Buffer
  | Studio_Mode
  | Take_Screenshot
  | Take_Source_Screenshot
  | Toggle_Source_Filter
  | Toggle_Source_Visibility
  | Toggle_Start_Stop_Replay_Buffer
  | Unpause_Recording
  deriving DecidableEq, Repr

/-- The enumerators of `ActionsClass::Actions` with their names. -/
def ActionsClass.names : List (String × ActionsClass.Actions) :=
  [("Set_Volume", .Set_Volume), ("Toggle_Mute", .Toggle_Mute), ("Do_Transition", .Do_Transition),
   ("Set_Preview_Scene", .Set_Preview_Scene), ("Set_Current_Scene", .Set_Current_Scene),
   ("Toggle_Start_Stop_Recording", .Toggle_Start_Stop_Recording),
   ("Start_Recording", .Start_Recording), ("Stop_Recording", .Stop_Recording),
   ("Toggle_Start_Stop_Streaming", .Toggle_Start_Stop_Streaming),
   ("Start_Streaming", .Start_Streaming), ("Stop_Streaming", .Stop_Streaming),
   ("Disable_Preview", .Disable_Preview), ("Disable_Source_Filter", .Disable_Source_Filter),
   ("Enable_Preview", .Enable_Preview), ("Enable_Source_Filter", .Enable_Source_Filter),
   ("Move_T_Bar", .Move_T_Bar), ("Next_Media", .Next_Media),
   ("Pause_Recording", .Pause_Recording), ("Play_Pause_Media", .Play_Pause_Media),
   ("Previous_Media", .Previous_Media), ("Reload_Browser_Source", .Reload_Browser_Source),
   ("Reset_Scene_Item", .Reset_Scene_Item), ("Reset_Stats", .Reset_Stats),
   ("Restart_Media", .Restart_Media), ("Resume_Recording", .Resume_Recording),
   ("Save_Replay_Buffer", .Save_Replay_Buffer), ("Scrub_Media", .Scrub_Media),
   ("Set_Audio_Monitor_Type", .Set_Audio_Monitor_Type),
   ("Set_Browser_Source_URL", .Set_Browser_Source_URL),
   ("Set_Current_Profile", .Set_Current_Profile),
   ("Set_Current_Scene_Collection", .Set_Current_Scene_Collection),
   ("Set_Current_Transition", .Set_Current_Transition), ("Set_Gain_Filter", .Set_Gain_Filter),
   ("Set_Media_Time", .Set_Media_Time), ("Set_Mute", .Set_Mute), ("Set_Opacity", .Set_Opacity),
   ("Set_Scene_Item_Crop", .Set_Scene_Item_Crop),
   ("Set_Scene_Item_Position", .Set_Scene_Item_Position),
   ("Set_Scene_Item_Render", .Set_Scene_Item_Render),
   ("Set_Scene_Item_Transform", .Set_Scene_Item_Transform),
   ("Set_Scene_Transition_Override", .Set_Scene_Transition_Override),
   ("Set_Source_Filter_Visibility", .Set_Source_Filter_Visibility),
   ("Set_Source_Name", .Set_Source_Name), ("Set_Source_Position", .Set_Source_Position),
   ("Set_Source_Rotation", .Set_Source_Rotation), ("Set_Source_Scale", .Set_Source_Scale),
   ("Set_Source_Settings", .Set_Source_Settings), ("Set_Sync_Offset", .Set_Sync_Offset),
   ("Set_Text_GDIPlus_Text", .Set_Text_GDIPlus_Text),
   ("Set_Transition_Duration", .Set_Transition_Duration),
   ("Start_Replay_Buffer", .Start_Replay_Buffer), ("Stop_Media", .Stop_Media),
   ("Stop_Replay_Buffer", .Stop_Replay_Buffer), ("Studio_Mode", .Studio_Mode),
   ("Take_Screenshot", .Take_Screenshot), ("Take_Source_Screenshot", .Take_Source_Screenshot),
   ("Toggle_Source_Filter", .Toggle_Source_Filter),
   ("Toggle_Source_Visibility", .Toggle_Source_Visibility),
   ("Toggle_Start_Stop_Replay_Buffer", .Toggle_Start_Stop_Replay_Buffer),
   ("Unpause_Recording", .Unpause_Recording)]

/-- The enumeration `Events::event_type`: the enumerators named by the case
labels of `MidiAgent::handle_obs_event`. -/
inductive Events.event_type where
  | SourceVolumeChanged
  | SwitchScenes
  | PreviewSceneChanged
  | SourceMuteStateChanged
  | StreamStarted
  | StreamStarting
  | StreamStopped
  | StreamStopping
  | RecordingStarted
  | RecordingStarting
  | RecordingStopping
  | RecordingStopped
  | SceneChanged
  | LoadingFinished
  | SourceRenamed
  | Exiting
  | SourceRemoved
  | ProfileChanged
  | SceneCollectionChanged
  | TransitionBegin
  deriving DecidableEq, Repr

/-- The enumerators of `Events::event_type` with their names. -/
def Events.names : List (String × Events.event_type) :=
  [("SourceVolumeChanged", .SourceVolumeChanged), ("SwitchScenes", .SwitchScenes),
   ("PreviewSceneChanged", .PreviewSceneChanged),
   ("SourceMuteStateChanged", .SourceMuteStateChanged), ("StreamStarted", .StreamStarted),
   ("StreamStarting", .StreamStarting), ("StreamStopped", .StreamStopped),
   ("StreamStopping", .StreamStopping), ("RecordingStarted", .RecordingStarted),
   ("RecordingStarting", .RecordingStarting), ("RecordingStopping", .RecordingStopping),
   ("RecordingStopped", .RecordingStopped), ("SceneChanged", .SceneChanged),
   ("LoadingFinished", .LoadingFinished), ("SourceRenamed", .SourceRenamed),
   ("Exiting", .Exiting), ("SourceRemoved", .SourceRemoved), ("ProfileChanged", .ProfileChanged),
   ("SceneCollectionChanged", .SceneCollectionChanged), ("TransitionBegin", .TransitionBegin)]

/-- Modelled from the spec: `Utils::untranslate` is declared outside `src/`.
A Binding holds its `commandKind` as a command identifier, not as a display
text, so there is nothing to translate back: an identifier is left as it
is. -/
def Utils.untranslate (action : String) : String :=
  action

/-- Modelled from the spec: `ActionsClass::string_to_action` is declared
outside `src/`. A Binding has one `commandKind` out of the enumeration of
command identifiers; the kind of a hook is the enumerator its `action` string
names, and a string that names no enumerator yields no kind (no case label of
a `switch` is taken). -/
def ActionsClass.string_to_action (action : String) : Option ActionsClass.Actions :=
  ActionsClass.names.lookup action

/-- Modelled from the spec: `Events::string_to_event` is declared outside
`src/`. An ApplicationEvent has one `kind` out of the enumeration of
state-change categories; the kind is the enumerator the update type names,
and an update type that names no enumerator yields no kind. -/
def Events.string_to_event (updateType : String) : Option Events.event_type :=
  Events.names.lookup updateType

/-! ## Outbound matching -/

/-- The subject of the `switch` of
`MidiAgent::get_midi_hook_if_exists(const RpcEvent &)`:
`ActionsClass::string_to_action(Utils::untranslate(hook->action))`. -/
def MidiHook.kind (hook : MidiHook) : Option ActionsClass.Actions :=
  ActionsClass.string_to_action (Utils.untranslate hook.action)

/-- The body of the loop of
`MidiAgent::get_midi_hook_if_exists(const RpcEvent &)`: the value of `found`
for one hook. The case labels with an empty body leave `found` false. -/
def event_found (hook : MidiHook) (event : RpcEvent) : Bool :=
  match hook.kind with
  | some .Set_Volume =>
    hook.audio_source == obs_data_get_string event.additionalFields "sourceName" &&
      event.updateType == "SourceVolumeChanged"
  | some .Toggle_Mute =>
    hook.audio_source == obs_data_get_string event.additionalFields "sourceName" &&
      event.updateType == "SourceMuteStateChanged"
  | some .Do_Transition | some .Set_Preview_Scene | some .Set_Current_Scene =>
    hook.scene == obs_data_get_string event.additionalFields "scene-name"
  | some .Toggle_Start_Stop_Recording | some .Start_Recording | some .Stop_Recording =>
    event.updateType == "RecordingStarted" || event.updateType == "RecordingStopped" ||
      event.updateType == "RecordingStopping"
  | some .Toggle_Start_Stop_Streaming | some .Start_Streaming | some .Stop_Streaming =>
    event.updateType == "StreamStarted" || event.updateType == "StreamStopped" ||
      event.updateType == "StreamStopping"
  | _ => false

/-- The function `MidiAgent::get_midi_hook_if_exists(const RpcEvent &)`: the
loop returns at the first hook for which `found` is true, and `NULL` (`none`)
after the last hook. -/
def get_midi_hook_if_exists (event : RpcEvent) : List MidiHook → Option MidiHook
  | [] => none
  | hook :: rest => if event_found hook event then some hook else get_midi_hook_if_exists event rest

/-! ## Feedback helpers -/

/-- Modelled from the spec: `MidiHook::get_message_from_hook` (`midi-hook.cpp`
is not under `src/`) "synthesizes a Message from the Binding's trigger
fields". -/
def MidiHook.get_message_from_hook (hook : MidiHook) : MidiMessage :=
  { message_type := hook.message_type, NORC := hook.norc, channel := hook.channel, value := 0,
    device_name := "" }

/-- Modelled from the spec: `Macro::swap_buttons` (`macro-helpers.cpp` is not
under `src/`). "On a new match the agent first synthesizes an "off" feedback
Message for the previous index (if different), then an "on" feedback Message
for the new index". -/
def Macro.swap_buttons (message : MidiMessage) (original_value new_value : Int) : List Feedback :=
  (if original_value ≠ new_value then [Feedback.off { message with NORC := original_value }]
    else []) ++ [Feedback.on { message with NORC := new_value }]

/-- Modelled from the spec: `Macro::set_on_off` (`macro-helpers.cpp` is not
under `src/`) lights or un-lights the indicator of the message it is given. -/
def Macro.set_on_off (message : MidiMessage) (is_on : Bool) : List Feedback :=
  [if is_on then Feedback.on message else Feedback.off message]

/-- Modelled from the spec: `Macro::set_volume` (`macro-helpers.cpp` is not
under `src/`) moves the indicator of the message it is given to a volume. -/
def Macro.set_volume (message : MidiMessage) (vol : Rat) : List Feedback :=
  [Feedback.volume message vol]

/-! ## Source rename and removal -/

/-- The function `MidiAgent::rename_source`: the loop over the hooks, and one
`Save` for each hook it changes. -/
def rename_source (event : RpcEvent) : List MidiHook → List MidiHook × List Effect
  | [] => ([], [])
  | midiHook :: rest =>
    let from_ := obs_data_get_string event.additionalFields "previousName"
    let rs := rename_source event rest
    if midiHook.scene = from_ then
      ({ midiHook with scene := obs_data_get_string event.additionalFields "newName" } :: rs.1,
        Effect.Save :: rs.2)
    else if midiHook.source = from_ then
      ({ midiHook with source := obs_data_get_string event.additionalFields "newName" } :: rs.1,
        Effect.Save :: rs.2)
    else (midiHook :: rs.1, rs.2)

/-- A cell of the array behind the hook vector while `remove_source` walks
it: the hook pointer, named by the place the hook had when the walk began, and
the hook it points to. -/
abbrev cell := Nat × MidiHook

/-- The call `midiHooks.removeOne(hook)` on the array of a `QVector` of
pointers that is not shared (Qt 5): among the first `size` cells the ones
after the first occurrence of the pointer move one place down, the size drops
by one, and the cell at the old last place keeps what it held. -/
def removeOne (cells : List cell) (size : Nat) (ptr : Nat) : List cell × Nat :=
  match (cells.take size).findIdx? (fun c => c.1 == ptr) with
  | none => (cells, size)
  | some j =>
    (cells.take j ++ (cells.drop (j + 1)).take (size - j - 1) ++ cells.drop (size - 1), size - 1)

/-- The function `MidiAgent::remove_MidiHook` on the array: when the vector
contains the pointer, its first occurrence is removed (and the hook
deleted). -/
def remove_MidiHook (cells : List cell) (size : Nat) (ptr : Nat) : List cell × Nat :=
  if (cells.take size).any (fun c => c.1 == ptr) then removeOne cells size ptr
  else (cells, size)

/-- One step of the range-based `for` of `MidiAgent::remove_source`, with the
iterator at place `it` of the array. The iterator and the end it runs to are
taken from the vector once, before the first step, so the walk visits every
place the array had at that time, whatever the body removes. A hook that was
deleted is read as it was. -/
def remove_source_step (from_ : String) (s : List cell × Nat × List Effect) (it : Nat) :
    List cell × Nat × List Effect :=
  match s.1.get? it with
  | none => s
  | some c =>
    if c.2.source = from_ then
      let r := remove_MidiHook s.1 s.2.1 c.1
      (r.1, r.2, s.2.2 ++ [Effect.Save])
    else s

/-- The function `MidiAgent::remove_source`. -/
def remove_source (closing : Bool) (event : RpcEvent) (midiHooks : List MidiHook) :
    List MidiHook × List Effect :=
  if closing then (midiHooks, [])
  else
    let from_ := obs_data_get_string event.additionalFields "sourceName"
    let s := (List.range midiHooks.length).foldl (remove_source_step from_)
      (midiHooks.enum, midiHooks.length, [])
    (((s.1.take s.2.1).map Prod.snd), s.2.2 ++ [Effect.Save])

/-! ## Application events -/

/-- The function `MidiAgent::set_current_volumes`. The argument `volumelist`
is `Utils::GetAudioSourceNames()`, each name with the volume
`obs_source_get_volume` reports for it. -/
def set_current_volumes (midiHooks : List MidiHook) : List (String × Rat) → List Effect
  | [] => []
  | (name, vol) :: rest =>
    let event : RpcEvent :=
      { updateType := "SourceVolumeChanged",
        additionalFields := [("sourceName", obs_data_item.string name)] }
    match get_midi_hook_if_exists event midiHooks with
    | none => []
    | some hook =>
      (Macro.set_volume hook.get_message_from_hook vol).map Effect.feedback ++
        set_current_volumes midiHooks rest

/-- The function `MidiAgent::startup`. -/
def startup (midiHooks : List MidiHook) (volumelist : List (String × Rat)) : List Effect :=
  set_current_volumes midiHooks volumelist

/-- The first `switch` of `MidiAgent::handle_obs_event`, taken when a hook
was found: the feedback for the event and the process-wide state it leaves. -/
def handle_hooked_event (st : state) (hook : MidiHook) (event : RpcEvent) :
    state × List Feedback :=
  let message := hook.get_message_from_hook
  match Events.string_to_event event.updateType with
  | some .SourceVolumeChanged =>
    (st, Macro.set_volume message (obs_data_get_double event.additionalFields "volume"))
  | some .SwitchScenes =>
    ({ st with previous_scene_norc := hook.norc },
      Macro.swap_buttons message st.previous_scene_norc hook.norc)
  | some .PreviewSceneChanged =>
    ({ st with previous_preview_scene_norc := hook.norc },
      Macro.swap_buttons message st.previous_preview_scene_norc hook.norc)
  | some .SourceMuteStateChanged =>
    (st, Macro.set_on_off message (!obs_data_get_bool event.additionalFields "muted"))
  | some .StreamStarted => (st, Macro.set_on_off message true)
  | some .StreamStarting => (st, Macro.set_on_off message false)
  | some .StreamStopped => (st, Macro.set_on_off message false)
  | some .StreamStopping => (st, Macro.set_on_off message false)
  | some .RecordingStarted => (st, Macro.set_on_off message true)
  | some .RecordingStarting => (st, Macro.set_on_off message false)
  | some .RecordingStopping => (st, Macro.set_on_off message true)
  | some .RecordingStopped => (st, Macro.set_on_off message false)
  | some .SceneChanged =>
    ({ st with previous_scene_norc := hook.norc },
      Macro.swap_buttons message st.previous_scene_norc hook.norc)
  | _ => (st, [])

/-- The second `switch` of `MidiAgent::handle_obs_event`, taken when no hook
was found ("events that dont need a hook"). -/
def handle_unhooked_event (self : MidiAgent) (st : state) (volumelist : List (String × Rat))
    (event : RpcEvent) : MidiAgent × state × List Effect :=
  match Events.string_to_event event.updateType with
  | some .LoadingFinished => (self, st, startup self.midiHooks volumelist)
  | some .SourceRenamed =>
    let r := rename_source event self.midiHooks
    ({ self with midiHooks := r.1 }, st, r.2)
  | some .Exiting => (self, { st with closing := true }, [])
  | some .SourceRemoved =>
    let r := remove_source st.closing event self.midiHooks
    ({ self with midiHooks := r.1 }, st, r.2)
  | some .ProfileChanged => (self, st, [Effect.reload])
  | some .SceneCollectionChanged => (self, st, [Effect.reload])
  | _ => (self, st, [])

/-- The function `MidiAgent::handle_obs_event`. The argument `volumelist` is
what the controlled application reports to `startup()` (see
`set_current_volumes`). -/
def handle_obs_event (self : MidiAgent) (st : state) (volumelist : List (String × Rat))
    (event : RpcEvent) : MidiAgent × state × List Effect :=
  if event.updateType = "FinishedLoading" then ({ self with loading := false }, st, [])
  else if self.loading then (self, st, [])
  else
    match get_midi_hook_if_exists event self.midiHooks with
    | some hook =>
      let r := handle_hooked_event st hook event
      (self, r.1, r.2.map Effect.feedback)
    | none => handle_unhooked_event self st volumelist event

/-! ## Reading a list of effects -/

/-- The hooks `EXE` was called on, in call order, each as it stood at the
call. -/
def executed (effects : List Effect) : List MidiHook :=
  effects.filterMap fun e => match e with
    | Effect.EXE hook => some hook
    | _ => none

/-- The messages that were broadcast to observers, in order. -/
def broadcasts (effects : List Effect) : List MidiMessage :=
  effects.filterMap fun e => match e with
    | Effect.broadcast message => some message
    | _ => none

/-- The feedback messages that were sent, in order. -/
def feedbacks (effects : List Effect) : List Feedback :=
  effects.filterMap fun e => match e with
    | Effect.feedback f => some f
    | _ => none

/-- The errors that were downgraded to diagnostics, in order. -/
def diagnostics (effects : List Effect) : List String :=
  effects.filterMap fun e => match e with
    | Effect.diagnostic error => some error
    | _ => none

/-! ## A small controlled application

The scenario of the specification (section 8) binds one trigger to
`Set_Current_Scene` and to `Toggle_Mute`. The two command bodies are taken
from `obs-controller.cpp` and run against an application that has scenes and
audio sources. -/

/-- The part of the controlled application the two commands touch: the
sources by name with their mute state, the scene names, and the scene on
program. -/
structure Obs where
  sources : List (String × Bool)
  scenes : List String
  current_scene : String
  deriving DecidableEq, Repr

/-- The function `ToggleMute::execute`. -/
def ToggleMute.execute (hook : MidiHook) (app : Obs) : Outcome Obs :=
  if hook.audio_source.isEmpty then
    { thrown := some "sourceName is empty", scene := hook.scene, app := app }
  else
    match app.sources.lookup hook.audio_source with
    | none => { thrown := some "sourceName not found", scene := hook.scene, app := app }
    | some _ =>
      { thrown := none, scene := hook.scene,
        app := { app with sources := app.sources.map fun s =>
          if s.1 = hook.audio_source then (s.1, !s.2) else s } }

/-- The function `SetCurrentScene::execute`: the scene named by the hook goes
on program when the application has it. -/
def SetCurrentScene.execute (hook : MidiHook) (app : Obs) : Outcome Obs :=
  { thrown := none, scene := hook.scene,
    app := if hook.scene ∈ app.scenes then { app with current_scene := hook.scene } else app }

/-- Command resolution for a registry that holds `Set_Current_Scene` and
`Toggle_Mute`; the specification has resolution of any other kind fail with
`UnknownCommand`. -/
def scenario_execute (hook : MidiHook) (app : Obs) : Outcome Obs :=
  if hook.action = "Set_Current_Scene" then SetCurrentScene.execute hook app
  else if hook.action = "Toggle_Mute" then ToggleMute.execute hook app
  else { thrown := some "UnknownCommand", scene := hook.scene, app := app }

/-- A hook with the given trigger and action and no parameters. -/
def blank_hook (message_type : String) (norc channel : Int) (action : String) : MidiHook :=
  { message_type := message_type, norc := norc, channel := channel, value := none,
    value_as_filter := false, action := action, scene := "", source := "", audio_source := "",
    media_source := "", filter := "", transition := "", profile := "", scene_collection := "",
    hotkey := "", string_override := "", int_override := none, duration := none,
    range_min := none, range_max := none }

/-- An agent on device `nanoKONTROL` holding the given hooks, the input side
enabled or not, past loading. -/
def sample_agent (enabled : Bool) (midiHooks : List MidiHook) : MidiAgent :=
  { midi_input_name := "nanoKONTROL", midi_output_name := "nanoKONTROL", input_port := 0,
    output_port := 0, enabled := enabled, bidirectional := true, connected := true,
    sending := false, loading := false, midiHooks := midiHooks }

/-- An application with the scenes `Intro` and `Main` and no audio source
named `Mic`. -/
def sample_app : Obs :=
  { sources := [("Desktop Audio", false)], scenes := ["Intro", "Main"], current_scene := "Main" }

/-- A note-on message for note 1 on channel 0. -/
def sample_message : MidiMessage :=
  { message_type := "Note On", NORC := 1, channel := 0, value := 127, device_name := "" }

/-! ## Output transport -/

/-- A message as `libremidi::message` builds it for the output port. -/
inductive libremidi.message where
  | control_change (channel control value : Int)
  | note_on (channel note velocity : Int)
  | note_off (channel note velocity : Int)
  deriving DecidableEq, Repr

/-- The conversion of an `int` argument to a parameter of type `uint8_t`: the
value modulo 256. -/
def uint8_t (x : Int) : Int := x % 256

/-- The output object `midiout` of an agent (`libremidi::midi_out`): whether
its port is open, and the messages that were transmitted through the port, in
order. -/
structure libremidi.midi_out where
  is_port_open : Bool
  messages : List libremidi.message
  deriving DecidableEq, Repr

/-- The library call `midiout.send_message(message)`. A message reaches the
device through the open port; on an object whose port is not open there is no
connection to transmit on and nothing is transmitted. -/
def libremidi.midi_out.send_message (midiout : libremidi.midi_out)
    (message : libremidi.message) : libremidi.midi_out :=
  if midiout.is_port_open then { midiout with messages := midiout.messages ++ [message] }
  else midiout

/-- The function `MidiAgent::send_message_to_midi_device`, on the agent
(`this`) and its member `midiout`. The builders `control_change`, `note_on`
and `note_off` of `libremidi::message` take their three arguments as
`uint8_t`; the `int` fields of the message are converted at the call. -/
def send_message_to_midi_device (_self : MidiAgent) (midiout : libremidi.midi_out)
    (message : MidiMessage) : libremidi.midi_out :=
  if message.message_type ≠ "none" then
    if message.message_type = "Control Change" then
      midiout.send_message
        (libremidi.message.control_change (uint8_t message.channel) (uint8_t message.NORC)
          (uint8_t message.value))
    else if message.message_type = "Note On" then
      midiout.send_message
        (libremidi.message.note_on (uint8_t message.channel) (uint8_t message.NORC)
          (uint8_t message.value))
    else if message.message_type = "Note Off" then
      midiout.send_message
        (libremidi.message.note_off (uint8_t message.channel) (uint8_t message.NORC)
          (uint8_t message.value))
    else midiout
  else midiout

/-! ## Command registry -/

/-- The command classes of `obs-controller.cpp` that `Actions::make_map`
instantiates, in the order of their first `new`. -/
inductive ActionClass where
  | SetCurrentScene
  | ResetSceneItem
  | ToggleMute
  | TransitionToProgram
  | SetCurrentTransition
  | SetMute
  | StartStopStreaming
  | SetPreviewScene
  | SetCurrentSceneCollection
  | SetTransitionDuration
  | StartStreaming
  | StopStreaming
  | StartRecording
  | StopRecording
  | StartReplayBuffer
  | StopReplayBuffer
  | SetVolume
  | TakeSourceScreenshot
  | PauseRecording
  | EnableSourceFilter
  | DisableSourceFilter
  | StartStopRecording
  | StartStopReplayBuffer
  | ResumeRecording
  | SaveReplayBuffer
  | SetCurrentProfile
  | ToggleSourceFilter
  | SetTextGDIPlusText
  | SetBrowserSourceURL
  | ReloadBrowserSource
  | SetSyncOffset
  | SetSourceRotation
  | SetSourcePosition
  | SetGainFilter
  | SetOpacity
  | SetSourceScale
  | move_t_bar
  | play_pause_media_source
  | toggle_studio_mode
  | reset_stats
  | restart_media
  | stop_media
  | prev_media
  | next_media
  | ToggleSourceVisibility
  | TakeScreenshot
  | DisablePreview
  | EnablePreview
  | make_opacity_filter
  | TriggerHotkey
  deriving DecidableEq, Repr

/-- The entries `Actions::make_map` inserts: key and class of the new command
object, in source order. -/
def Actions.entries : List (String × ActionClass) :=
  [("Set_Current_Scene", .SetCurrentScene), ("Reset_Scene_Item", .ResetSceneItem),
   ("Toggle_Mute", .ToggleMute), ("Do_Transition", .TransitionToProgram),
   ("Set_Current_Transition", .SetCurrentTransition), ("Set_Mute", .SetMute),
   ("Toggle_Start_Stop_Streaming", .StartStopStreaming), ("Set_Preview_Scene", .SetPreviewScene),
   ("Set_Current_Scene_Collection", .SetCurrentSceneCollection),
   ("Set_Transition_Duration", .SetTransitionDuration), ("Start_Streaming", .StartStreaming),
   ("Stop_Streaming", .StopStreaming), ("Start_Recording", .StartRecording),
   ("Stop_Recording", .StopRecording), ("Start_Replay_Buffer", .StartReplayBuffer),
   ("Stop_Replay_Buffer", .StopReplayBuffer), ("Set_Volume", .SetVolume),
   ("Take_Source_Screenshot", .TakeSourceScreenshot), ("Pause_Recording", .PauseRecording),
   ("Enable_Source_Filter", .EnableSourceFilter),
   ("Disable_Source_Filter", .DisableSourceFilter),
   ("Toggle_Start_Stop_Recording", .StartStopRecording),
   ("Toggle_Start_Stop_Replay_Buffer", .StartStopReplayBuffer),
   ("Resume_Recording", .ResumeRecording), ("Save_Replay_Buffer", .SaveReplayBuffer),
   ("Set_Current_Profile", .SetCurrentProfile), ("Toggle_Source_Filter", .ToggleSourceFilter),
   ("Set_Text_GDIPlus_Text", .SetTextGDIPlusText),
   ("Set_Browser_Source_URL", .SetBrowserSourceURL),
   ("Reload_Browser_Source", .ReloadBrowserSource), ("Set_Sync_Offset", .SetSyncOffset),
   ("Set_Source_Rotation", .SetSourceRotation), ("Set_Source_Position", .SetSourcePosition),
   ("Set_Gain_Filter", .SetGainFilter), ("Set_Opacity", .SetOpacity),
   ("Set_Source_Scale", .SetSourceScale), ("Move_T_Bar", .move_t_bar),
   ("Play_Pause_Media", .play_pause_media_source), ("Studio_Mode", .toggle_studio_mode),
   ("Reset_Stats", .reset_stats), ("Restart_Media", .restart_media), ("Stop_Media", .stop_media),
   ("Previous_Media", .prev_media), ("Next_Media", .next_media),
   ("Toggle_Source_Visibility", .ToggleSourceVisibility), ("Take_Screenshot", .TakeScreenshot),
   ("Disable_Preview", .DisablePreview), ("Enable_Preview", .EnablePreview),
   ("Toggle_Fade_Source", .make_opacity_filter), ("Trigger_Hotkey_By_Name", .TriggerHotkey),
   ("Trigger Hotkey", .TriggerHotkey)]

/-- A command object, the target of an `Actions *`: its class and its member
`hook`. -/
structure Actions where
  cls : ActionClass
  hook : Option MidiHook
  deriving DecidableEq, Repr

/-- The static member `Actions::_action_map`, a `QMap<QString, Actions *>`:
each key with the pointer stored under it, `none` for a null pointer. Keys are
unique; the order in which a `QMap` iterates is not modelled. -/
abbrev action_map := List (String × Option Actions)

/-- The call `QMap::insert(key, value)`: the value of an existing key is
replaced, a new key is added. -/
def QMap.insert (map : action_map) (key : String) (value : Option Actions) : action_map :=
  if map.any (fun e => e.1 == key) then map.map fun e => if e.1 = key then (key, value) else e
  else map ++ [(key, value)]

/-- The function `Actions::make_map`: one new command object under each
key. -/
def Actions.make_map (map : action_map) : action_map :=
  Actions.entries.foldl (fun m e => QMap.insert m e.1 (some { cls := e.2, hook := none })) map

/-- The body of the constructor `Actions::Actions(MidiHook *)`, on the static
map. -/
def Actions.init (map : action_map) : action_map :=
  if map.isEmpty then Actions.make_map map else map

/-- The expression `_action_map[action]`: `QMap::operator[]` returns the
value stored under the key and, when the map does not have the key, first
inserts it with a default-constructed value, here the null pointer. -/
def QMap.index (map : action_map) (key : String) : action_map × Option Actions :=
  match map.lookup key with
  | some act => (map, act)
  | none => (map ++ [(key, none)], none)

/-- The function `Actions::make_action(QString action)`: the map afterwards
and the pointer returned. -/
def Actions.make_action (map : action_map) (action : String) : action_map × Option Actions :=
  QMap.index map action

/-- The function `Actions::make_action(QString action, MidiHook *h)`: the map
afterwards and the command object returned. The call `act->set_hook(h)` stores
`h` in the object under the key; through a null pointer it is undefined, and
the result is `none`. -/
def Actions.make_action_with_hook (map : action_map) (action : String) (h : MidiHook) :
    Option (action_map × Actions) :=
  match (QMap.index map action).2 with
  | none => none
  | some act =>
    some (QMap.insert (QMap.index map action).1 action (some { act with hook := some h }),
      { act with hook := some h })

/-- The keys of the registry with the class of the command under each. -/
def registered (map : action_map) : List (String × Option ActionClass) :=
  map.map fun e => (e.1, e.2.map fun act => act.cls)

/-! ## Command bodies -/

/-- Modelled from the spec: `Utils::mapper` (`utils.cpp` is not under `src/`)
is the `normalize` of "outputLevel = normalize(value)^3", which takes the
values 0 to 127 onto the levels 0 to 1: `normalize(64) = 64/127`. Levels are
exact rationals. -/
def Utils.mapper (x : Int) : Rat :=
  x / 127

/-- The function `SetVolume::execute`, on the audio sources of the
application, each with its volume: `obs_source_set_volume` of the source named
by the hook to `pow(Utils::mapper(*hook->value), 3.0)`. Reading the value of a
hook that holds none is undefined, and the result is `none`. -/
def SetVolume.execute (hook : MidiHook) (sources : List (String × Rat)) :
    Option (List (String × Rat)) :=
  match hook.value with
  | none => none
  | some value =>
    some (sources.map fun s =>
      if s.1 = hook.audio_source then (s.1, Utils.mapper value ^ 3) else s)

/-- A call a command body makes into the application or into its log. -/
inductive ObsCall where
  /-- The call `blog(level, text)`. -/
  | blog (text : String)
  /-- The call `obs_frontend_set_current_preview_scene(source)`, with the name
  of the source, `none` for a null pointer. -/
  | obs_frontend_set_current_preview_scene (source : Option String)
  deriving DecidableEq, Repr

/-- The function `SetPreviewScene::execute`: the calls it makes, in order.
The arguments are what `obs_frontend_preview_program_mode_active()` returns
and the helper `Utils::GetSceneFromNameOrCurrent` (not under `src/`), which
yields the scene for a name, `none` for a null scene; `obs_scene_get_source`
of a null scene is a null source. -/
def SetPreviewScene.execute (preview_program_mode_active : Bool)
    (GetSceneFromNameOrCurrent : String → Option String) (hook : MidiHook) : List ObsCall :=
  (if !preview_program_mode_active then
      [ObsCall.blog "Can Not Set Preview scene -- studio mode not enabled"]
    else []) ++
    (match GetSceneFromNameOrCurrent hook.scene with
      | none => [ObsCall.blog "specified scene doesn't exist"]
      | some _ => []) ++
    [ObsCall.obs_frontend_set_current_preview_scene (GetSceneFromNameOrCurrent hook.scene)]

/-! ## Transition to program -/

/-- The transition bookkeeping of class `state` that
`TransitionToProgram::execute` writes. -/
structure transition_state where
  _CurrentTransitionDuration : Int
  _CurrentTransition : String
  _TransitionWasCalled : Bool
  deriving DecidableEq, Repr

/-- What the frontend reports to `TransitionToProgram::execute`:
`obs_frontend_get_transition_duration()`, the names of
`obs_frontend_get_current_transition()` and of
`obs_frontend_get_current_scene()`, and
`obs_frontend_preview_program_mode_active()`. -/
structure obs_frontend where
  transition_duration : Int
  current_transition : String
  current_scene : String
  preview_program_mode_active : Bool
  deriving DecidableEq, Repr

/-- A call `TransitionToProgram::execute` makes to change the application. -/
inductive FrontendCall where
  /-- The call `Utils::SetTransitionByName(name)`. -/
  | SetTransitionByName (name : String)
  /-- The call `obs_frontend_set_transition_duration(duration)`. -/
  | obs_frontend_set_transition_duration (duration : Int)
  /-- The call `obs_frontend_preview_program_trigger_transition()`. -/
  | obs_frontend_preview_program_trigger_transition
  deriving DecidableEq, Repr

/-- The function `TransitionToProgram::execute`: the hook, the transition
bookkeeping and the calls made, in order. The first argument is
`state::transitioning`. The current transition is read before any call is
made. With studio mode off the function ends in `SetCurrentScene().execute()`:
the command object is new and was given no hook, and
`SetCurrentScene::execute` reads `hook->scene` through its null `hook`. C++
defines nothing from that read on, and the result is `none`. -/
def TransitionToProgram.execute (transitioning : Bool) (frontend : obs_frontend)
    (ts : transition_state) (hook : MidiHook) :
    Option (MidiHook × transition_state × List FrontendCall) :=
  if transitioning then some (hook, ts, [])
  else
    let ts1 := { ts with _CurrentTransitionDuration := frontend.transition_duration }
    let set_transition : Bool :=
      hook.transition != "Current Transition" && !hook.transition.isEmpty
    let ts2 := if set_transition then { ts1 with _TransitionWasCalled := true } else ts1
    let ts3 :=
      if hook.scene != "Preview Scene" && !hook.scene.isEmpty then
        { ts2 with _TransitionWasCalled := true }
      else ts2
    let hook4 :=
      if hook.scene = "Preview Scene" then { hook with scene := frontend.current_scene } else hook
    let ts4 :=
      if hook.scene = "Preview Scene" then { ts3 with _TransitionWasCalled := true } else ts3
    let set_duration : Option Int :=
      match hook.int_override with
      | some duration => if duration > 0 then some duration else none
      | none => none
    let ts5 := if set_duration.isSome then { ts4 with _TransitionWasCalled := true } else ts4
    if frontend.preview_program_mode_active then
      some (hook4, { ts5 with _CurrentTransition := frontend.current_transition },
        (if set_transition then [FrontendCall.SetTransitionByName hook.transition] else []) ++
          (match set_duration with
            | some duration => [FrontendCall.obs_frontend_set_transition_duration duration]
            | none => []) ++
          [FrontendCall.obs_frontend_preview_program_trigger_transition])
    else none

/-! ## Opening the ports -/

/-- The error types of libremidi that `open_midi_input_port` and
`open_midi_output_port` name in their handlers; `driver_error` and
`system_error` derive from `midi_exception`. -/
inductive libremidi.exception where
  | midi_exception
  | driver_error
  | system_error
  deriving DecidableEq, Repr

/-- The input object `midiin` of an agent (`libremidi::midi_in`): whether its
port is open. -/
structure libremidi.midi_in where
  is_port_open : Bool
  deriving DecidableEq, Repr

/-- What a port function does besides changing the port: the library calls
it makes and the lines it logs. -/
inductive PortCall where
  /-- The call `open_port(port)` on the library object. -/
  | open_port (port : Int)
  /-- The call `blog(level, text)`. -/
  | blog (text : String)
  deriving DecidableEq, Repr

/-- The library call `midiin.open_port(port)`. The library decides the
outcome, which is the argument `thrown`: with `none` the port is opened, with
an error the call throws it and the port is not opened. -/
def libremidi.midi_in.open_port (midiin : libremidi.midi_in)
    (thrown : Option libremidi.exception) : Except libremidi.exception libremidi.midi_in :=
  match thrown with
  | none => Except.ok { midiin with is_port_open := true }
  | some error => Except.error error

/-- The library call `midiout.open_port(port)`, as `midi_in.open_port`. -/
def libremidi.midi_out.open_port (midiout : libremidi.midi_out)
    (thrown : Option libremidi.exception) : Except libremidi.exception libremidi.midi_out :=
  match thrown with
  | none => Except.ok { midiout with is_port_open := true }
  | some error => Except.error error

/-- The function `MidiAgent::open_midi_input_port`: the port afterwards and
what was called and logged, or the error that leaves the function. Each of the
three handlers logs the error; the line after the `try` block is logged on
both paths. -/
def open_midi_input_port (self : MidiAgent) (midiin : libremidi.midi_in)
    (thrown : Option libremidi.exception) :
    Except libremidi.exception (libremidi.midi_in × List PortCall) :=
  if !midiin.is_port_open then
    match midiin.open_port thrown with
    | Except.ok opened =>
      Except.ok (opened,
        [PortCall.open_port self.input_port, PortCall.blog "MIDI device connected In"])
    | Except.error libremidi.exception.midi_exception =>
      Except.ok (midiin,
        [PortCall.open_port self.input_port, PortCall.blog "Midi Error",
          PortCall.blog "MIDI device connected In"])
    | Except.error libremidi.exception.driver_error =>
      Except.ok (midiin,
        [PortCall.open_port self.input_port, PortCall.blog "Midi Error",
          PortCall.blog "MIDI device connected In"])
    | Except.error libremidi.exception.system_error =>
      Except.ok (midiin,
        [PortCall.open_port self.input_port, PortCall.blog "Midi Error",
          PortCall.blog "MIDI device connected In"])
  else Except.ok (midiin, [])

/-- The function `MidiAgent::open_midi_output_port`. -/
def open_midi_output_port (self : MidiAgent) (midiout : libremidi.midi_out)
    (thrown : Option libremidi.exception) :
    Except libremidi.exception (libremidi.midi_out × List PortCall) :=
  if !midiout.is_port_open then
    match midiout.open_port thrown with
    | Except.ok opened => Except.ok (opened, [PortCall.open_port self.output_port])
    | Except.error libremidi.exception.midi_exception =>
      Except.ok (midiout, [PortCall.open_port self.output_port, PortCall.blog "Midi Error"])
    | Except.error libremidi.exception.driver_error =>
      Except.ok (midiout, [PortCall.open_port self.output_port, PortCall.blog "Midi Error"])
    | Except.error libremidi.exception.system_error =>
      Except.ok (midiout, [PortCall.open_port self.output_port, PortCall.blog "Midi Error"])
  else Except.ok (midiout, [])

/-! ## The bidirectional flag and the output port -/

/-- The library call `midiout.close_port()`. -/
def libremidi.midi_out.close_port (midiout : libremidi.midi_out) : libremidi.midi_out :=
  { midiout with is_port_open := false }

/-- The function `MidiAgent::close_midi_output_port`. -/
def close_midi_output_port (midiout : libremidi.midi_out) : libremidi.midi_out :=
  if midiout.is_port_open then midiout.close_port else midiout

/-- The function `MidiAgent::set_bidirectional`, on the agent and its member
`midiout`; `thrown` is what the library's `open_port` does if it is called.
The call `GetConfig()->Save()` that ends the function writes the
configuration and is left out. -/
def set_bidirectional (self : MidiAgent) (midiout : libremidi.midi_out)
    (thrown : Option libremidi.exception) (state : Bool) :
    Except libremidi.exception (MidiAgent × libremidi.midi_out) :=
  let self : MidiAgent := { self with bidirectional := state }
  if !state then
    if midiout.is_port_open then Except.ok (self, midiout.close_port)
    else Except.ok (self, midiout)
  else
    match open_midi_output_port self midiout thrown with
    | Except.ok opened => Except.ok (self, opened.1)
    | Except.error error => Except.error error

/-- The constructor `MidiAgent::MidiAgent(const char *midiData)` from the
return of `Load` on, as far as the output object goes: `self` is the agent as
`Load` filled it, `attached` is `is_device_attached(midiData)`, the member
`midiout` is new and its port not open. The port is opened only for an
attached device whose bidirectional flag was loaded as true. The other
constructor, `MidiAgent(in_port, out_port)`, opens no port: it leaves what
this one leaves with `attached` false. -/
def MidiAgent.ctor (self : MidiAgent) (attached : Bool) (thrown : Option libremidi.exception) :
    MidiAgent × libremidi.midi_out :=
  let midiout : libremidi.midi_out := { is_port_open := false, messages := [] }
  if attached then
    if self.bidirectional then
      match open_midi_output_port self midiout thrown with
      | Except.ok opened => (self, opened.1)
      | Except.error _ => (self, midiout)
    else (self, midiout)
  else (self, midiout)

/-- The member functions under `src/` that write the bidirectional flag of an
agent or call its output object, as calls made on a constructed agent.
`open_midi_output_port` is called by the constructor and by
`set_bidirectional` only; `Load`, the other writer of the flag, by the
constructor only. -/
inductive OutputCall where
  | set_bidirectional (state : Bool) (thrown : Option libremidi.exception)
  | close_midi_output_port
  | close_both_midi_ports
  | send_message_to_midi_device (message : MidiMessage)
  deriving DecidableEq, Repr

/-- One call on the agent and its output object. An error leaving
`set_bidirectional` would leave the flag written and the port as it was. -/
def OutputCall.run (s : MidiAgent × libremidi.midi_out) :
    OutputCall → MidiAgent × libremidi.midi_out
  | .set_bidirectional state thrown =>
    match ObsMidi.set_bidirectional s.1 s.2 thrown state with
    | Except.ok r => r
    | Except.error _ => ({ s.1 with bidirectional := state }, s.2)
  | .close_midi_output_port => (s.1, ObsMidi.close_midi_output_port s.2)
  | .close_both_midi_ports => (s.1, ObsMidi.close_midi_output_port s.2)
  | .send_message_to_midi_device message =>
    (s.1, ObsMidi.send_message_to_midi_device s.1 s.2 message)

/-- The agent and its output object after construction and a sequence of
calls. -/
def MidiAgent.after (self : MidiAgent) (attached : Bool) (thrown : Option libremidi.exception)
    (calls : List OutputCall) : MidiAgent × libremidi.midi_out :=
  calls.foldl OutputCall.run (MidiAgent.ctor self attached thrown)

/-- Modelled from the spec: the feedback helpers of `macro-helpers.cpp` (not
under `src/`) transmit through the agent: "synthesizes a Message from the
Binding's trigger fields and the event's payload, and transmits it on the
output port". Each feedback message is handed to
`send_message_to_midi_device`, in order; `to_message` is the message a helper
builds for it. -/
def send_feedback (self : MidiAgent) (to_message : Feedback → MidiMessage)
    (midiout : libremidi.midi_out) (fs : List Feedback) : libremidi.midi_out :=
  fs.foldl (fun out f => send_message_to_midi_device self out (to_message f)) midiout

/-! ## Saving and loading an agent -/

/-- The settings object an agent is saved as: its scalar settings by name and,
under the key `hooks`, the array of the saved hooks. A saved hook is a value
of `δ`, the settings object of one hook. Printing an object as JSON
(`obs_data_get_json`) and reading it back (`obs_data_create_from_json`) are
library calls that return the object they were given; the model passes the
object itself. -/
structure device_data (δ : Type) where
  settings : obs_data
  hooks : List δ

/-- The function `MidiAgent::GetData`. The argument `hook_GetData` is
`MidiHook::GetData` (not under `src/`), read back as a settings object. -/
def GetData {δ : Type} (hook_GetData : MidiHook → δ) (self : MidiAgent) : device_data δ :=
  { settings :=
      [("name", obs_data_item.string self.midi_input_name),
        ("outname", obs_data_item.string self.midi_output_name),
        ("enabled", obs_data_item.bool self.enabled),
        ("bidirectional", obs_data_item.bool self.bidirectional)],
    hooks := self.midiHooks.map hook_GetData }

/-- The function `MidiAgent::Load`. The arguments are the constructor
`MidiHook::MidiHook(json)` (not under `src/`) and the port lookups of the
device manager; `obs_data_set_default_bool(data, key, false)` is the default
`obs_data_get_bool` has for an absent key. Each loaded hook is appended with
`add_MidiHook`. -/
def Load {δ : Type} (hook_of_json : δ → MidiHook)
    (get_input_port_number get_output_port_number : String → Int) (self : MidiAgent)
    (data : device_data δ) : MidiAgent :=
  { self with
    midi_input_name := obs_data_get_string data.settings "name",
    midi_output_name := obs_data_get_string data.settings "outname",
    input_port := get_input_port_number (obs_data_get_string data.settings "name"),
    output_port := get_output_port_number (obs_data_get_string data.settings "outname"),
    enabled := obs_data_get_bool data.settings "enabled",
    bidirectional := obs_data_get_bool data.settings "bidirectional",
    midiHooks := self.midiHooks ++ data.hooks.map hook_of_json }

/-! ## Configuration window -/

/-- The hook record of `forms/configwindow.cpp`: the fields the window reads
and writes. -/
structure ConfigWindow.MidiHook where
  type : String
  index : Int
  action : String
  command : String
  param1 : String
  param2 : String
  param3 : String
  deriving DecidableEq, Repr

/-- The expression `ui.tableWidget->item(i, column)->text()` on row `i` of the
table, the row given by the texts of its items from column 0 on.
`QTableWidget::item` returns null for a column where no item was set, and the
call of `text` through null is undefined: `none`. -/
def item_text (row : List String) (column : Nat) : Option String :=
  row.get? column

/-- The body of the loop of `ConfigWindow::save` up to `AddMidiHook`: the hook
built from one row. The argument `toInt` is `QString::toInt`. Column 2 is not
read (its line is commented out). -/
def ConfigWindow.row_hook (toInt : String → Int) (row : List String) :
    Option ConfigWindow.MidiHook :=
  match item_text row 0, item_text row 1, item_text row 3, item_text row 4, item_text row 5,
    item_text row 6, item_text row 7 with
  | some type, some index, some action, some command, some param1, some param2, some param3 =>
    some { type := type, index := toInt index, action := action, command := command,
           param1 := param1, param2 := param2, param3 := param3 }
  | _, _, _, _, _, _, _ => none

/-- Modelled from the spec: `ClearMidiHooks` of the device (not under `src/`)
is the "clear" of "clear-then-rebuild": the device holds no hook afterwards.
The agent of `midi-agent.cpp` has it as `clear_MidiHooks`, which ends in
`midiHooks.clear()`. -/
def ClearMidiHooks (_hooks : List ConfigWindow.MidiHook) : List ConfigWindow.MidiHook :=
  []

/-- Modelled from the spec: `AddMidiHook` of the device (not under `src/`)
adds one hook at the end of the device's ordered sequence. The agent of
`midi-agent.cpp` has it as `add_MidiHook`, which is
`midiHooks.push_back(hook)`. -/
def AddMidiHook (hooks : List ConfigWindow.MidiHook) (hook : ConfigWindow.MidiHook) :
    List ConfigWindow.MidiHook :=
  hooks ++ [hook]

/-- The loop of `ConfigWindow::save` over the rows of the table, from the
hooks the device holds when the loop is entered. -/
def ConfigWindow.save_rows (toInt : String → Int) :
    List ConfigWindow.MidiHook → List (List String) → Option (List ConfigWindow.MidiHook)
  | hooks, [] => some hooks
  | hooks, row :: rest =>
    match ConfigWindow.row_hook toInt row with
    | some hook => ConfigWindow.save_rows toInt (AddMidiHook hooks hook) rest
    | none => none

/-- The function `ConfigWindow::save`, on the hooks of the device and the rows
of the table: the hooks of the device afterwards. -/
def ConfigWindow.save (toInt : String → Int) (device_hooks : List ConfigWindow.MidiHook)
    (table : List (List String)) : Option (List ConfigWindow.MidiHook) :=
  ConfigWindow.save_rows toInt (ClearMidiHooks device_hooks) table

/-- The branch `QMessageBox::Ok` of `ConfigWindow::clearTable`: the table is
emptied with `setRowCount(0)` and saved. -/
def ConfigWindow.clearTable (toInt : String → Int) (device_hooks : List ConfigWindow.MidiHook) :
    Option (List ConfigWindow.MidiHook) :=
  ConfigWindow.save toInt device_hooks []

/-- One row of the table as the window builds it: `AddRowFromHooks` and
`insertRow`, the two functions that add a row, set an item in each of the
columns 0 to 7. The fields are the texts of the eight items. -/
structure TableRow where
  column0 : String
  column1 : String
  column2 : String
  column3 : String
  column4 : String
  column5 : String
  column6 : String
  column7 : String
  deriving DecidableEq, Repr

/-- The texts of the items of a row, from column 0 on. -/
def TableRow.items (row : TableRow) : List String :=
  [row.column0, row.column1, row.column2, row.column3, row.column4, row.column5, row.column6,
    row.column7]

/-! ## Inbound dispatch: lemmas -/

theorem executed_append (xs ys : List Effect) : executed (xs ++ ys) = executed xs ++ executed ys := by
  simp [executed, List.filterMap_append]

theorem executed_EXE {σ : Type} (execute : MidiHook → σ → Outcome σ) (hook : MidiHook) (app : σ) :
    executed (MidiHook.EXE execute hook app).2.2 = [hook] := by
  unfold MidiHook.EXE
  cases h : (execute hook app).thrown <;> simp [executed, h]

theorem EXE_value {σ : Type} (execute : MidiHook → σ → Outcome σ) (hook : MidiHook) (app : σ) :
    (MidiHook.EXE execute hook app).1.value = hook.value := by
  unfold MidiHook.EXE
  cases h : (execute hook app).thrown <;> simp [h]

theorem executed_step {σ : Type} (execute : MidiHook → σ → Outcome σ) (unset : MidiHook → Int)
    (M : MidiMessage) (H : MidiHook) (app : σ) :
    executed (exe_midi_hook_step execute unset M H app).2.2 =
      if H.message_type = M.message_type ∧ H.norc = M.NORC ∧ H.channel = M.channel ∧
          (H.value_as_filter = false ∨ M.value = H.value.getD (unset H)) then
        [if H.value_as_filter then H else { H with value := some M.value }]
      else [] := by
  unfold exe_midi_hook_step trigger_matches
  by_cases h1 : H.message_type = M.message_type <;> by_cases h2 : H.norc = M.NORC <;>
    by_cases h3 : H.channel = M.channel <;> cases h4 : H.value_as_filter <;>
    by_cases h5 : M.value = H.value.getD (unset H) <;>
    simp [h1, h2, h3, h4, h5, executed_EXE] <;> simp [executed]

/-- The hooks the loop executes are the hooks that pass its two nested tests,
one call each, in vector order; a hook with `value_as_filter` passes the inner
test on the value that `*midiHook->value` reads. -/
theorem executed_dispatch {σ : Type}
    (execute : MidiHook → σ → Outcome σ) (unset : MidiHook → Int) (M : MidiMessage)
    (midiHooks : List MidiHook) (app : σ) :
    executed (exe_midi_hook_if_exists execute unset M midiHooks app).2.2 =
      (midiHooks.filter fun H =>
        decide (H.message_type = M.message_type ∧ H.norc = M.NORC ∧ H.channel = M.channel ∧
          (H.value_as_filter = false ∨ M.value = H.value.getD (unset H)))).map
        fun H => if H.value_as_filter then H else { H with value := some M.value } := by
  induction midiHooks generalizing app with
  | nil => simp [exe_midi_hook_if_exists, executed]
  | cons H rest ih =>
    simp only [exe_midi_hook_if_exists, executed_append, executed_step, ih, List.filter_cons]
    by_cases hP : H.message_type = M.message_type ∧ H.norc = M.NORC ∧ H.channel = M.channel ∧
        (H.value_as_filter = false ∨ M.value = H.value.getD (unset H))
    · simp only [hP, and_self, decide_True, if_true, List.map_cons, List.singleton_append]
    · simp only [hP, decide_False, if_false, List.nil_append, Bool.false_eq_true]

/-- When every hook that has `value_as_filter` set holds a value, the hooks
executed are the hooks H that agree with the message on type, norc and channel
and have `value_as_filter` false or `H.value = M.value`, each once, in vector
order, whatever an empty read yields. -/
theorem executed_dispatch_of_filter_values {σ : Type}
    (execute : MidiHook → σ → Outcome σ) (unset : MidiHook → Int) (M : MidiMessage)
    (midiHooks : List MidiHook) (app : σ)
    (hvalues : ∀ H ∈ midiHooks, H.value_as_filter = true → H.value ≠ none) :
    executed (exe_midi_hook_if_exists execute unset M midiHooks app).2.2 =
      (midiHooks.filter fun H =>
        decide (H.message_type = M.message_type ∧ H.norc = M.NORC ∧ H.channel = M.channel ∧
          (H.value_as_filter = false ∨ H.value = some M.value))).map
        fun H => if H.value_as_filter then H else { H with value := some M.value } := by
  rw [executed_dispatch]
  congr 1
  apply List.filter_congr
  intro H hH
  have hv := hvalues H hH
  cases hf : H.value_as_filter
  · simp
  · cases hval : H.value with
    | none => exact absurd hval (hv hf)
    | some v =>
      simp only [Option.getD_some, Option.some.injEq, Bool.true_eq_false, false_or]
      have : (M.value = v) ↔ (v = M.value) := eq_comm
      simp only [this]

/-- C1 fails on a hook that has `value_as_filter` set and holds no value. The
hook sits on note 1 of channel 0 and a note-on message of value 0 arrives for
that note: the hook does not satisfy `H.value = M.value`, so the claim has it
not executed, but the loop compares the message value with what the read of
the empty optional yields, here 0, and executes the hook. -/
theorem exe_midi_hook_if_exists_executes_unset_filter :
    ({ blank_hook "Note On" 1 0 "Set_Current_Scene" with
          value_as_filter := true, scene := "Intro" } : MidiHook).value ≠
        some ({ sample_message with value := 0 } : MidiMessage).value ∧
      executed (exe_midi_hook_if_exists scenario_execute (fun _ => 0)
        { sample_message with value := 0 }
        [{ blank_hook "Note On" 1 0 "Set_Current_Scene" with
            value_as_filter := true, scene := "Intro" }] sample_app).2.2 =
        [{ blank_hook "Note On" 1 0 "Set_Current_Scene" with
            value_as_filter := true, scene := "Intro" }] ∧
      (exe_midi_hook_if_exists scenario_execute (fun _ => 0)
        { sample_message with value := 0 }
        [{ blank_hook "Note On" 1 0 "Set_Current_Scene" with
            value_as_filter := true, scene := "Intro" }] sample_app).2.1.current_scene =
        "Intro" := by
  decide

theorem step_value {σ : Type} (execute : MidiHook → σ → Outcome σ) (unset : MidiHook → Int)
    (M : MidiMessage) (H : MidiHook) (app : σ) :
    (exe_midi_hook_step execute unset M H app).1.value =
      if H.message_type = M.message_type ∧ H.norc = M.NORC ∧ H.channel = M.channel ∧
          H.value_as_filter = false then some M.value else H.value := by
  unfold exe_midi_hook_step trigger_matches
  by_cases h1 : H.message_type = M.message_type <;> by_cases h2 : H.norc = M.NORC <;>
    by_cases h3 : H.channel = M.channel <;> cases h4 : H.value_as_filter <;>
    by_cases h5 : M.value = H.value.getD (unset H) <;>
    simp [h1, h2, h3, h4, h5, EXE_value]

theorem step_unmatched {σ : Type} (execute : MidiHook → σ → Outcome σ) (unset : MidiHook → Int)
    (M : MidiMessage) (H : MidiHook) (app : σ)
    (h : ¬(H.message_type = M.message_type ∧ H.norc = M.NORC ∧ H.channel = M.channel ∧
          (H.value_as_filter = false ∨ M.value = H.value.getD (unset H)))) :
    exe_midi_hook_step execute unset M H app = (H, app, []) := by
  unfold exe_midi_hook_step trigger_matches
  by_cases h1 : H.message_type = M.message_type <;> by_cases h2 : H.norc = M.NORC <;>
    by_cases h3 : H.channel = M.channel <;> cases h4 : H.value_as_filter <;>
    by_cases h5 : M.value = H.value.getD (unset H) <;>
    simp_all

theorem dispatch_unmatched {σ : Type} (execute : MidiHook → σ → Outcome σ)
    (unset : MidiHook → Int) (M : MidiMessage) (midiHooks : List MidiHook) (app : σ)
    (h : ∀ H ∈ midiHooks, ¬(H.message_type = M.message_type ∧ H.norc = M.NORC ∧
          H.channel = M.channel ∧
          (H.value_as_filter = false ∨ M.value = H.value.getD (unset H)))) :
    exe_midi_hook_if_exists execute unset M midiHooks app = (midiHooks, app, []) := by
  induction midiHooks generalizing app with
  | nil => rfl
  | cons H rest ih =>
    have hH := step_unmatched execute unset M H app (h H (List.mem_cons_self _ _))
    have hrest := ih app (fun K hK => h K (List.mem_cons_of_mem _ hK))
    simp [exe_midi_hook_if_exists, hH, hrest]

theorem executed_step_value {σ : Type} (execute : MidiHook → σ → Outcome σ)
    (unset : MidiHook → Int) (M : MidiMessage) (H : MidiHook) (app : σ) (K : MidiHook)
    (hK : K ∈ executed (exe_midi_hook_step execute unset M H app).2.2)
    (hfilter : K.value_as_filter = false) : K.value = some M.value := by
  rw [executed_step] at hK
  split at hK
  · simp only [List.mem_singleton] at hK
    subst hK
    cases hf : H.value_as_filter
    · simp [hf]
    · simp [hf] at hfilter
  · simp at hK

/-- C2: after inbound dispatch, whatever the read of an empty value yields, a
hook holds the message value when it has no value filter and agrees with the
message on type, norc and channel, and holds the value it held before in every
other case (value filter set, or another trigger); every hook without a value
filter that is executed already holds the message value when it is executed; a
message that no hook passes the tests of the loop for changes nothing: the
hooks, the application, no effect. -/
theorem exe_midi_hook_if_exists_stored_values {σ : Type}
    (execute : MidiHook → σ → Outcome σ) (unset : MidiHook → Int) (M : MidiMessage)
    (midiHooks : List MidiHook) (app : σ) :
    ((exe_midi_hook_if_exists execute unset M midiHooks app).1.map (fun H => H.value) =
        midiHooks.map fun H =>
          if H.message_type = M.message_type ∧ H.norc = M.NORC ∧ H.channel = M.channel ∧
              H.value_as_filter = false then some M.value else H.value) ∧
      (∀ H ∈ executed (exe_midi_hook_if_exists execute unset M midiHooks app).2.2,
        H.value_as_filter = false → H.value = some M.value) ∧
      ((∀ H ∈ midiHooks, ¬(H.message_type = M.message_type ∧ H.norc = M.NORC ∧
          H.channel = M.channel ∧
          (H.value_as_filter = false ∨ M.value = H.value.getD (unset H)))) →
        exe_midi_hook_if_exists execute unset M midiHooks app = (midiHooks, app, [])) := by
  refine ⟨?_, ?_, dispatch_unmatched execute unset M midiHooks app⟩
  · induction midiHooks generalizing app with
    | nil => rfl
    | cons H rest ih =>
      simp only [exe_midi_hook_if_exists, List.map_cons, step_value, ih]
  · induction midiHooks generalizing app with
    | nil => simp [exe_midi_hook_if_exists, executed]
    | cons H rest ih =>
      intro K hK hfilter
      simp only [exe_midi_hook_if_exists, executed_append, List.mem_append] at hK
      rcases hK with hK | hK
      · exact executed_step_value execute unset M H app K hK hfilter
      · exact ih _ K hK hfilter

/-- C2 at a control-change hook and a note-on message: nothing changes. -/
theorem exe_midi_hook_if_exists_stored_values_witness :
    (∀ H ∈ [blank_hook "Control Change" 7 0 "Set_Volume"],
        ¬(H.message_type = sample_message.message_type ∧ H.norc = sample_message.NORC ∧
          H.channel = sample_message.channel ∧
          (H.value_as_filter = false ∨
            sample_message.value = H.value.getD ((fun _ => 0) H)))) ∧
      exe_midi_hook_if_exists scenario_execute (fun _ => 0) sample_message
          [blank_hook "Control Change" 7 0 "Set_Volume"] sample_app =
        ([blank_hook "Control Change" 7 0 "Set_Volume"], sample_app, []) :=
  ⟨by decide,
    (exe_midi_hook_if_exists_stored_values scenario_execute (fun _ => 0) sample_message
      [blank_hook "Control Change" 7 0 "Set_Volume"] sample_app).2.2 (by decide)⟩

theorem diagnostics_append (xs ys : List Effect) :
    diagnostics (xs ++ ys) = diagnostics xs ++ diagnostics ys := by
  simp [diagnostics, List.filterMap_append]

theorem dispatch_append {σ : Type} (execute : MidiHook → σ → Outcome σ) (unset : MidiHook → Int)
    (M : MidiMessage) (xs ys : List MidiHook) (app : σ) :
    exe_midi_hook_if_exists execute unset M (xs ++ ys) app =
      ((exe_midi_hook_if_exists execute unset M xs app).1 ++
          (exe_midi_hook_if_exists execute unset M ys
            (exe_midi_hook_if_exists execute unset M xs app).2.1).1,
        (exe_midi_hook_if_exists execute unset M ys
          (exe_midi_hook_if_exists execute unset M xs app).2.1).2.1,
        (exe_midi_hook_if_exists execute unset M xs app).2.2 ++
          (exe_midi_hook_if_exists execute unset M ys
            (exe_midi_hook_if_exists execute unset M xs app).2.1).2.2) := by
  induction xs generalizing app with
  | nil => simp [exe_midi_hook_if_exists]
  | cons H rest ih => simp [exe_midi_hook_if_exists, ih, List.append_assoc]

theorem dispatch_length {σ : Type} (execute : MidiHook → σ → Outcome σ) (unset : MidiHook → Int)
    (M : MidiMessage) (midiHooks : List MidiHook) (app : σ) :
    (exe_midi_hook_if_exists execute unset M midiHooks app).1.length = midiHooks.length := by
  induction midiHooks generalizing app with
  | nil => rfl
  | cons H rest ih => simp [exe_midi_hook_if_exists, ih]

theorem EXE_thrown {σ : Type} (execute : MidiHook → σ → Outcome σ) (hook : MidiHook) (app : σ)
    (error : String) (h : (execute hook app).thrown = some error) :
    error ∈ diagnostics (MidiHook.EXE execute hook app).2.2 := by
  unfold MidiHook.EXE
  simp [h, diagnostics]

theorem step_matched {σ : Type} (execute : MidiHook → σ → Outcome σ) (unset : MidiHook → Int)
    (M : MidiMessage) (H : MidiHook) (app : σ)
    (hmatch : H.message_type = M.message_type ∧ H.norc = M.NORC ∧ H.channel = M.channel ∧
      (H.value_as_filter = false ∨ M.value = H.value.getD (unset H))) :
    exe_midi_hook_step execute unset M H app =
      MidiHook.EXE execute (if H.value_as_filter then H else { H with value := some M.value })
        app := by
  obtain ⟨h1, h2, h3, h4⟩ := hmatch
  have ht : trigger_matches H M = true := by simp [trigger_matches, h1, h2, h3]
  unfold exe_midi_hook_step
  rw [if_pos ht]
  cases hf : H.value_as_filter
  · simp
  · have hv : M.value = H.value.getD (unset H) := by
      rcases h4 with h4 | h4
      · simp [hf] at h4
      · exact h4
    simp [hv]

theorem step_thrown {σ : Type} (execute : MidiHook → σ → Outcome σ) (unset : MidiHook → Int)
    (M : MidiMessage) (H : MidiHook) (app : σ) (error : String)
    (hmatch : H.message_type = M.message_type ∧ H.norc = M.NORC ∧ H.channel = M.channel ∧
      (H.value_as_filter = false ∨ M.value = H.value.getD (unset H)))
    (hthrown : (execute (if H.value_as_filter then H else { H with value := some M.value })
      app).thrown = some error) :
    error ∈ diagnostics (exe_midi_hook_step execute unset M H app).2.2 := by
  rw [step_matched execute unset M H app hmatch]
  exact EXE_thrown execute _ app error hthrown

theorem broadcasts_EXE {σ : Type} (execute : MidiHook → σ → Outcome σ) (hook : MidiHook) (app : σ) :
    broadcasts (MidiHook.EXE execute hook app).2.2 = [] := by
  unfold MidiHook.EXE
  cases h : (execute hook app).thrown <;> simp [broadcasts, h]

theorem broadcasts_step {σ : Type} (execute : MidiHook → σ → Outcome σ) (unset : MidiHook → Int)
    (M : MidiMessage) (H : MidiHook) (app : σ) :
    broadcasts (exe_midi_hook_step execute unset M H app).2.2 = [] := by
  unfold exe_midi_hook_step
  split
  · split
    · split
      · exact broadcasts_EXE _ _ _
      · rfl
    · exact broadcasts_EXE _ _ _
  · rfl

theorem broadcasts_dispatch {σ : Type} (execute : MidiHook → σ → Outcome σ)
    (unset : MidiHook → Int) (M : MidiMessage) (midiHooks : List MidiHook) (app : σ) :
    broadcasts (exe_midi_hook_if_exists execute unset M midiHooks app).2.2 = [] := by
  induction midiHooks generalizing app with
  | nil => rfl
  | cons H rest ih =>
    have hs := broadcasts_step execute unset M H app
    have hr := ih (exe_midi_hook_step execute unset M H app).2.1
    simp only [broadcasts] at hs hr ⊢
    simp [exe_midi_hook_if_exists, List.filterMap_append, hs, hr]

/-- C6: inbound dispatch is error-isolated per hook. When the command of a
hook that the loop executes raises an error, dispatch still returns a result
for the whole hook sequence, the error is among the diagnostics, and the hooks
executed are the hooks executed before it, the hook itself, and then every
hook after it that passes the tests of the loop, in order (the test of a hook
with a value filter being made on the value its read yields). -/
theorem exe_midi_hook_if_exists_error_isolated {σ : Type}
    (execute : MidiHook → σ → Outcome σ) (unset : MidiHook → Int) (M : MidiMessage)
    (before : List MidiHook) (H : MidiHook) (after : List MidiHook) (app : σ) (error : String)
    (hmatch : H.message_type = M.message_type ∧ H.norc = M.NORC ∧ H.channel = M.channel ∧
      (H.value_as_filter = false ∨ M.value = H.value.getD (unset H)))
    (hthrown : (execute (if H.value_as_filter then H else { H with value := some M.value })
      (exe_midi_hook_if_exists execute unset M before app).2.1).thrown = some error) :
    (exe_midi_hook_if_exists execute unset M (before ++ H :: after) app).1.length =
        (before ++ H :: after).length ∧
      error ∈
        diagnostics (exe_midi_hook_if_exists execute unset M (before ++ H :: after) app).2.2 ∧
      executed (exe_midi_hook_if_exists execute unset M (before ++ H :: after) app).2.2 =
        executed (exe_midi_hook_if_exists execute unset M before app).2.2 ++
          (if H.value_as_filter then H else { H with value := some M.value }) ::
            (after.filter fun K =>
              decide (K.message_type = M.message_type ∧ K.norc = M.NORC ∧
                K.channel = M.channel ∧
                (K.value_as_filter = false ∨ M.value = K.value.getD (unset K)))).map
              fun K => if K.value_as_filter then K else { K with value := some M.value } := by
  refine ⟨dispatch_length _ _ _ _ _, ?_, ?_⟩
  · rw [dispatch_append]
    simp only [exe_midi_hook_if_exists, diagnostics_append, List.mem_append]
    exact Or.inr (Or.inl (step_thrown execute unset M H _ error hmatch hthrown))
  · rw [dispatch_append]
    simp only [exe_midi_hook_if_exists, executed_append, executed_step, hmatch, and_self, if_true,
      List.singleton_append]
    congr 2
    have := executed_dispatch execute unset M after
      (exe_midi_hook_step execute unset M H
        (exe_midi_hook_if_exists execute unset M before app).2.1).2.1
    exact this

/-- C6, at the scenario of the specification: `Toggle_Mute` for a source the
application does not have, followed by `Set_Current_Scene`, both on note 1 of
channel 0. -/
theorem exe_midi_hook_if_exists_error_isolated_witness :
    (ToggleMute.execute
        { blank_hook "Note On" 1 0 "Toggle_Mute" with audio_source := "Mic", value := some 127 }
        sample_app).thrown = some "sourceName not found" ∧
      executed (exe_midi_hook_if_exists scenario_execute (fun _ => 0) sample_message
        ([] ++ { blank_hook "Note On" 1 0 "Toggle_Mute" with audio_source := "Mic" } ::
          [{ blank_hook "Note On" 1 0 "Set_Current_Scene" with scene := "Intro" }])
        sample_app).2.2 =
      [{ blank_hook "Note On" 1 0 "Toggle_Mute" with audio_source := "Mic", value := some 127 },
        { blank_hook "Note On" 1 0 "Set_Current_Scene" with scene := "Intro",
                                                             value := some 127 }] :=
  ⟨by decide,
    (exe_midi_hook_if_exists_error_isolated scenario_execute (fun _ => 0) sample_message []
      { blank_hook "Note On" 1 0 "Toggle_Mute" with audio_source := "Mic" }
      [{ blank_hook "Note On" 1 0 "Set_Current_Scene" with scene := "Intro" }] sample_app
      "sourceName not found" (by decide) (by decide)).2.2.trans (by decide)⟩

/-- C7: with the enabled flag false, `HandleInput` returns the agent and the
application as they were and performs no effect: nothing is broadcast, no hook
is executed, no field of the agent or of a hook changes. -/
theorem HandleInput_disabled_noop {σ : Type} (execute : MidiHook → σ → Outcome σ)
    (unset : MidiHook → Int) (self : MidiAgent) (message : MidiMessage) (app : σ)
    (hdisabled : self.enabled = false) :
    HandleInput execute unset self message app = (self, app, []) := by
  simp [HandleInput, hdisabled]

/-- C7 at a disabled agent that holds a hook matching the message. -/
theorem HandleInput_disabled_noop_witness :
    (sample_agent false [blank_hook "Note On" 1 0 "Set_Current_Scene"]).enabled = false ∧
      HandleInput scenario_execute (fun _ => 0)
          (sample_agent false [blank_hook "Note On" 1 0 "Set_Current_Scene"])
          sample_message sample_app =
        (sample_agent false [blank_hook "Note On" 1 0 "Set_Current_Scene"], sample_app, []) :=
  ⟨rfl, HandleInput_disabled_noop scenario_execute (fun _ => 0) _ sample_message sample_app rfl⟩

/-- C8 as stated fails: a message delivered to `HandleInput` of a disabled
agent is republished zero times, not once. -/
theorem HandleInput_disabled_not_republished :
    (broadcasts (HandleInput scenario_execute (fun _ => 0)
      (sample_agent false [blank_hook "Note On" 1 0 "Set_Current_Scene"]) sample_message
      sample_app).2.2).length ≠ 1 := by
  decide

/-- C8, amended: a message delivered to `HandleInput` of an enabled agent is
republished exactly once, with its type, norc, channel and value and the
agent's input device name, and the republication is the first effect: every
hook execution comes after it. -/
theorem HandleInput_enabled_republishes_once {σ : Type} (execute : MidiHook → σ → Outcome σ)
    (unset : MidiHook → Int) (self : MidiAgent) (message : MidiMessage) (app : σ)
    (henabled : self.enabled = true) :
    (HandleInput execute unset self message app).2.2 =
        Effect.broadcast { message with device_name := self.midi_input_name } ::
          (exe_midi_hook_if_exists execute unset
            { message with device_name := self.midi_input_name } self.midiHooks app).2.2 ∧
      broadcasts (HandleInput execute unset self message app).2.2 =
        [{ message_type := message.message_type, NORC := message.NORC, channel := message.channel,
           value := message.value, device_name := self.midi_input_name }] := by
  have hb := broadcasts_dispatch execute unset { message with device_name := self.midi_input_name }
    self.midiHooks app
  simp only [broadcasts] at hb ⊢
  simp [HandleInput, henabled, hb]

/-- C8, amended, at an enabled agent that holds no hook for the message. -/
theorem HandleInput_enabled_republishes_once_witness :
    (sample_agent true [blank_hook "Control Change" 7 0 "Set_Volume"]).enabled = true ∧
      broadcasts (HandleInput scenario_execute (fun _ => 0)
        (sample_agent true [blank_hook "Control Change" 7 0 "Set_Volume"]) sample_message
        sample_app).2.2 =
      [{ message_type := "Note On", NORC := 1, channel := 0, value := 127,
         device_name := "nanoKONTROL" }] :=
  ⟨rfl, (HandleInput_enabled_republishes_once scenario_execute (fun _ => 0) _ sample_message
    sample_app rfl).2⟩

/-! ## Outbound matching: theorems -/

theorem get_midi_hook_if_exists_eq_find (event : RpcEvent) (midiHooks : List MidiHook) :
    get_midi_hook_if_exists event midiHooks = midiHooks.find? fun hook => event_found hook event := by
  induction midiHooks with
  | nil => rfl
  | cons hook rest ih =>
    by_cases h : event_found hook event = true
    · simp [get_midi_hook_if_exists, List.find?, h]
    · simp [get_midi_hook_if_exists, List.find?, h, ih]

/-- C3: the outbound matcher returns the first hook of the sequence for which
the predicate of its command kind holds, and no hook when it holds for none.
For `Set_Volume` the predicate is: audio source equal to the event's
`sourceName` and update type `SourceVolumeChanged`; for the scene kinds: scene
equal to the event's `scene-name`; for the recording kinds: update type one of
`RecordingStarted`, `RecordingStopped`, `RecordingStopping`; for the streaming
kinds: update type one of `StreamStarted`, `StreamStopped`, `StreamStopping`. -/
theorem get_midi_hook_if_exists_first_match (event : RpcEvent) (midiHooks : List MidiHook) :
    get_midi_hook_if_exists event midiHooks =
        midiHooks.find? (fun hook => event_found hook event) ∧
      ∀ hook : MidiHook,
        (hook.kind = some .Set_Volume →
          (event_found hook event = true ↔
            hook.audio_source = obs_data_get_string event.additionalFields "sourceName" ∧
              event.updateType = "SourceVolumeChanged")) ∧
        (hook.kind = some .Set_Current_Scene ∨
            hook.kind = some .Set_Preview_Scene ∨
            hook.kind = some .Do_Transition →
          (event_found hook event = true ↔
            hook.scene = obs_data_get_string event.additionalFields "scene-name")) ∧
        (hook.kind = some .Toggle_Start_Stop_Recording ∨
            hook.kind = some .Start_Recording ∨
            hook.kind = some .Stop_Recording →
          (event_found hook event = true ↔
            event.updateType = "RecordingStarted" ∨ event.updateType = "RecordingStopped" ∨
              event.updateType = "RecordingStopping")) ∧
        (hook.kind = some .Toggle_Start_Stop_Streaming ∨
            hook.kind = some .Start_Streaming ∨
            hook.kind = some .Stop_Streaming →
          (event_found hook event = true ↔
            event.updateType = "StreamStarted" ∨ event.updateType = "StreamStopped" ∨
              event.updateType = "StreamStopping")) := by
  refine ⟨get_midi_hook_if_exists_eq_find event midiHooks, fun hook => ⟨?_, ?_, ?_, ?_⟩⟩
  · intro h
    simp [event_found, h]
  · rintro (h | h | h) <;> simp [event_found, h]
  · rintro (h | h | h) <;> simp [event_found, h, or_assoc]
  · rintro (h | h | h) <;> simp [event_found, h, or_assoc]

/-- C3 at a `Set_Volume` hook for `Mic` and a volume event of `Mic`. -/
theorem get_midi_hook_if_exists_first_match_witness :
    MidiHook.kind { blank_hook "Control Change" 7 0 "Set_Volume" with audio_source := "Mic" } =
        some .Set_Volume ∧
      event_found { blank_hook "Control Change" 7 0 "Set_Volume" with audio_source := "Mic" }
        { updateType := "SourceVolumeChanged",
          additionalFields := [("sourceName", obs_data_item.string "Mic")] } = true :=
  ⟨by decide,
    (((get_midi_hook_if_exists_first_match
      { updateType := "SourceVolumeChanged",
        additionalFields := [("sourceName", obs_data_item.string "Mic")] } []).2
      { blank_hook "Control Change" 7 0 "Set_Volume" with audio_source := "Mic" }).1
      (by decide)).mpr ⟨by decide, by decide⟩⟩

/-- C9 as stated fails for `Set_Mute`: a `Set_Mute` hook whose audio source is
the event's `sourceName` is not matched by a `SourceMuteStateChanged` event. -/
theorem get_midi_hook_if_exists_Set_Mute_unmatched :
    MidiHook.kind { blank_hook "Note On" 1 0 "Set_Mute" with audio_source := "Mic", source := "Mic" } =
        some .Set_Mute ∧
      ({ blank_hook "Note On" 1 0 "Set_Mute" with audio_source := "Mic", source := "Mic" }).audio_source =
        obs_data_get_string
          [("sourceName", obs_data_item.string "Mic"), ("muted", obs_data_item.bool true)]
          "sourceName" ∧
      get_midi_hook_if_exists
        { updateType := "SourceMuteStateChanged",
          additionalFields :=
            [("sourceName", obs_data_item.string "Mic"), ("muted", obs_data_item.bool true)] }
        [{ blank_hook "Note On" 1 0 "Set_Mute" with audio_source := "Mic", source := "Mic" }] =
        none := by
  decide

/-- C9, amended: a `Toggle_Mute` hook is matched iff its audio source is the
event's `sourceName` and the update type is `SourceMuteStateChanged`; a
`Set_Mute` hook is matched by no event. -/
theorem event_found_mute (hook : MidiHook) (event : RpcEvent) :
    (hook.kind = some .Toggle_Mute →
        (event_found hook event = true ↔
          hook.audio_source = obs_data_get_string event.additionalFields "sourceName" ∧
            event.updateType = "SourceMuteStateChanged")) ∧
      (hook.kind = some .Set_Mute →
        event_found hook event = false) := by
  constructor
  · intro h
    simp [event_found, h]
  · intro h
    simp [event_found, h]

/-- C9, amended, at a `Toggle_Mute` hook for `Mic` and a mute event of `Mic`. -/
theorem event_found_mute_witness :
    MidiHook.kind { blank_hook "Note On" 1 0 "Toggle_Mute" with audio_source := "Mic" } =
        some .Toggle_Mute ∧
      event_found { blank_hook "Note On" 1 0 "Toggle_Mute" with audio_source := "Mic" }
        { updateType := "SourceMuteStateChanged",
          additionalFields := [("sourceName", obs_data_item.string "Mic")] } = true :=
  ⟨by decide,
    ((event_found_mute { blank_hook "Note On" 1 0 "Toggle_Mute" with audio_source := "Mic" }
      { updateType := "SourceMuteStateChanged",
        additionalFields := [("sourceName", obs_data_item.string "Mic")] }).1
      (by decide)).mpr ⟨by decide, by decide⟩⟩

/-! ## Application events: theorems -/

theorem handle_obs_event_hooked (self : MidiAgent) (st : state) (volumelist : List (String × Rat))
    (event : RpcEvent) (hook : MidiHook) (hloaded : self.loading = false)
    (hkind : event.updateType ≠ "FinishedLoading")
    (hmatched : get_midi_hook_if_exists event self.midiHooks = some hook) :
    handle_obs_event self st volumelist event =
      (self, (handle_hooked_event st hook event).1,
        (handle_hooked_event st hook event).2.map Effect.feedback) := by
  simp [handle_obs_event, hkind, hloaded, hmatched]

theorem feedbacks_map_feedback (fs : List Feedback) : feedbacks (fs.map Effect.feedback) = fs := by
  induction fs with
  | nil => rfl
  | cons f rest ih =>
    simp only [feedbacks] at ih ⊢
    simp [ih]

/-- C4: a scene change (`SwitchScenes` or `SceneChanged`) handled after
loading and matched to a hook with index `n` while the tracked previous scene
index is `p` sends, when `p` differs from `n`, one "off" message for `p` and
then one "on" message for `n`, and when `p` equals `n` the "on" message only;
afterwards the tracked previous scene index is `n`. The same holds for
`PreviewSceneChanged` and the tracked previous preview-scene index. -/
theorem handle_obs_event_scene_change (self : MidiAgent) (st : state)
    (volumelist : List (String × Rat)) (event : RpcEvent) (hook : MidiHook)
    (hloaded : self.loading = false)
    (hmatched : get_midi_hook_if_exists event self.midiHooks = some hook) :
    (event.updateType = "SwitchScenes" ∨ event.updateType = "SceneChanged" →
        (handle_obs_event self st volumelist event).2.2 =
            ((if st.previous_scene_norc ≠ hook.norc then
                [Feedback.off { hook.get_message_from_hook with NORC := st.previous_scene_norc }]
              else []) ++
              [Feedback.on { hook.get_message_from_hook with NORC := hook.norc }]).map
              Effect.feedback ∧
          (handle_obs_event self st volumelist event).2.1.previous_scene_norc = hook.norc) ∧
      (event.updateType = "PreviewSceneChanged" →
        (handle_obs_event self st volumelist event).2.2 =
            ((if st.previous_preview_scene_norc ≠ hook.norc then
                [Feedback.off
                  { hook.get_message_from_hook with NORC := st.previous_preview_scene_norc }]
              else []) ++
              [Feedback.on { hook.get_message_from_hook with NORC := hook.norc }]).map
              Effect.feedback ∧
          (handle_obs_event self st volumelist event).2.1.previous_preview_scene_norc =
            hook.norc) := by
  constructor
  · intro hkind
    have hne : event.updateType ≠ "FinishedLoading" := by
      rcases hkind with h | h <;> rw [h] <;> decide
    rw [handle_obs_event_hooked self st volumelist event hook hloaded hne hmatched]
    have hk : Events.string_to_event event.updateType = some .SwitchScenes ∨
        Events.string_to_event event.updateType = some .SceneChanged := by
      rcases hkind with h | h
      · left; rw [h]; decide
      · right; rw [h]; decide
    rcases hk with hk | hk <;> simp [handle_hooked_event, hk, Macro.swap_buttons]
  · intro hkind
    have hne : event.updateType ≠ "FinishedLoading" := by
      rw [hkind]; decide
    rw [handle_obs_event_hooked self st volumelist event hook hloaded hne hmatched]
    have hk : Events.string_to_event event.updateType = some .PreviewSceneChanged := by
      rw [hkind]; decide
    simp [handle_hooked_event, hk, Macro.swap_buttons]

/-- C4 at an agent with scene hooks on notes 1 and 2, note 1 lit, when the
program scene changes to the scene of note 2: "off" for 1, then "on" for 2. -/
theorem handle_obs_event_scene_change_witness :
    (sample_agent true
        [{ blank_hook "Note On" 1 0 "Set_Current_Scene" with scene := "Intro" },
          { blank_hook "Note On" 2 0 "Set_Current_Scene" with scene := "Main" }]).loading = false ∧
      get_midi_hook_if_exists
          { updateType := "SwitchScenes",
            additionalFields := [("scene-name", obs_data_item.string "Main")] }
          (sample_agent true
            [{ blank_hook "Note On" 1 0 "Set_Current_Scene" with scene := "Intro" },
              { blank_hook "Note On" 2 0 "Set_Current_Scene" with scene := "Main" }]).midiHooks =
        some { blank_hook "Note On" 2 0 "Set_Current_Scene" with scene := "Main" } ∧
      (handle_obs_event
          (sample_agent true
            [{ blank_hook "Note On" 1 0 "Set_Current_Scene" with scene := "Intro" },
              { blank_hook "Note On" 2 0 "Set_Current_Scene" with scene := "Main" }])
          { previous_scene_norc := 1, previous_preview_scene_norc := 0, closing := false,
            transitioning := false }
          []
          { updateType := "SwitchScenes",
            additionalFields := [("scene-name", obs_data_item.string "Main")] }).2.2 =
        [Effect.feedback (Feedback.off
            { message_type := "Note On", NORC := 1, channel := 0, value := 0, device_name := "" }),
          Effect.feedback (Feedback.on
            { message_type := "Note On", NORC := 2, channel := 0, value := 0,
              device_name := "" })] :=
  ⟨rfl, by decide,
    (((handle_obs_event_scene_change
      (sample_agent true
        [{ blank_hook "Note On" 1 0 "Set_Current_Scene" with scene := "Intro" },
          { blank_hook "Note On" 2 0 "Set_Current_Scene" with scene := "Main" }])
      { previous_scene_norc := 1, previous_preview_scene_norc := 0, closing := false,
        transitioning := false }
      []
      { updateType := "SwitchScenes",
        additionalFields := [("scene-name", obs_data_item.string "Main")] }
      { blank_hook "Note On" 2 0 "Set_Current_Scene" with scene := "Main" }
      rfl (by decide)).1 (Or.inl rfl)).1).trans (by decide)⟩

theorem handle_hooked_event_feedback (st : state) (hook : MidiHook) (event : RpcEvent)
    (hkind : Events.string_to_event event.updateType ∈
      [some Events.event_type.SourceVolumeChanged, some .SwitchScenes, some .PreviewSceneChanged,
        some .SourceMuteStateChanged, some .StreamStarted, some .StreamStarting,
        some .StreamStopped, some .StreamStopping, some .RecordingStarted,
        some .RecordingStarting, some .RecordingStopping, some .RecordingStopped,
        some .SceneChanged]) :
    (handle_hooked_event st hook event).2 ≠ [] := by
  simp only [List.mem_cons, List.mem_singleton, List.not_mem_nil, or_false] at hkind
  rcases hkind with h | h | h | h | h | h | h | h | h | h | h | h | h <;>
    simp [handle_hooked_event, h, Macro.swap_buttons, Macro.set_on_off, Macro.set_volume]

/-- C5: while the loading flag is set, an event other than `FinishedLoading`
leaves the agent (its hooks included) and the process-wide state (the tracked
indices and the shutdown flag included) as they were and sends nothing; a
`FinishedLoading` event clears the loading flag and does nothing else; the
event handled next is handled as by an agent whose loading flag is clear, and
if it is matched to a hook and is of a kind that has feedback, feedback is
sent. -/
theorem handle_obs_event_loading (self : MidiAgent) (st : state)
    (volumelist : List (String × Rat)) (event : RpcEvent) :
    (self.loading = true → event.updateType ≠ "FinishedLoading" →
        handle_obs_event self st volumelist event = (self, st, [])) ∧
      (event.updateType = "FinishedLoading" →
        handle_obs_event self st volumelist event = ({ self with loading := false }, st, []) ∧
        ∀ (next : RpcEvent) (hook : MidiHook),
          handle_obs_event (handle_obs_event self st volumelist event).1
              (handle_obs_event self st volumelist event).2.1 volumelist next =
            handle_obs_event { self with loading := false } st volumelist next ∧
          (get_midi_hook_if_exists next self.midiHooks = some hook →
            Events.string_to_event next.updateType ∈
              [some Events.event_type.SourceVolumeChanged, some .SwitchScenes,
                some .PreviewSceneChanged, some .SourceMuteStateChanged, some .StreamStarted,
                some .StreamStarting, some .StreamStopped, some .StreamStopping,
                some .RecordingStarted, some .RecordingStarting, some .RecordingStopping,
                some .RecordingStopped, some .SceneChanged] →
            feedbacks (handle_obs_event (handle_obs_event self st volumelist event).1
              (handle_obs_event self st volumelist event).2.1 volumelist next).2.2 ≠ [])) := by
  constructor
  · intro hloading hkind
    simp [handle_obs_event, hkind, hloading]
  · intro hkind
    have hfin : handle_obs_event self st volumelist event =
        ({ self with loading := false }, st, []) := by
      simp [handle_obs_event, hkind]
    refine ⟨hfin, fun next hook => ⟨by rw [hfin], ?_⟩⟩
    intro hmatched hfeedback
    have hne : next.updateType ≠ "FinishedLoading" := by
      intro h
      rw [h] at hfeedback
      revert hfeedback
      decide
    rw [hfin, handle_obs_event_hooked { self with loading := false } st volumelist next hook rfl
      hne hmatched, feedbacks_map_feedback]
    exact handle_hooked_event_feedback st hook next hfeedback

/-- C5 at a loading agent that holds a stream hook: `StreamStarted` is
suppressed while loading, and sends an "on" message right after
`FinishedLoading`. -/
theorem handle_obs_event_loading_witness :
    ({ sample_agent true [blank_hook "Note On" 5 0 "Start_Streaming"] with
        loading := true }).loading = true ∧
      handle_obs_event
          { sample_agent true [blank_hook "Note On" 5 0 "Start_Streaming"] with loading := true }
          { previous_scene_norc := 0, previous_preview_scene_norc := 0, closing := false,
            transitioning := false }
          [] { updateType := "StreamStarted", additionalFields := [] } =
        ({ sample_agent true [blank_hook "Note On" 5 0 "Start_Streaming"] with loading := true },
          { previous_scene_norc := 0, previous_preview_scene_norc := 0, closing := false,
            transitioning := false }, []) ∧
      feedbacks (handle_obs_event
          (handle_obs_event
            { sample_agent true [blank_hook "Note On" 5 0 "Start_Streaming"] with
              loading := true }
            { previous_scene_norc := 0, previous_preview_scene_norc := 0, closing := false,
              transitioning := false }
            [] { updateType := "FinishedLoading", additionalFields := [] }).1
          (handle_obs_event
            { sample_agent true [blank_hook "Note On" 5 0 "Start_Streaming"] with
              loading := true }
            { previous_scene_norc := 0, previous_preview_scene_norc := 0, closing := false,
              transitioning := false }
            [] { updateType := "FinishedLoading", additionalFields := [] }).2.1
          [] { updateType := "StreamStarted", additionalFields := [] }).2.2 ≠ [] :=
  ⟨rfl,
    (handle_obs_event_loading
      { sample_agent true [blank_hook "Note On" 5 0 "Start_Streaming"] with loading := true }
      { previous_scene_norc := 0, previous_preview_scene_norc := 0, closing := false,
        transitioning := false }
      [] { updateType := "StreamStarted", additionalFields := [] }).1 rfl (by decide),
    (((handle_obs_event_loading
      { sample_agent true [blank_hook "Note On" 5 0 "Start_Streaming"] with loading := true }
      { previous_scene_norc := 0, previous_preview_scene_norc := 0, closing := false,
        transitioning := false }
      [] { updateType := "FinishedLoading", additionalFields := [] }).2 rfl).2
      { updateType := "StreamStarted", additionalFields := [] }
      (blank_hook "Note On" 5 0 "Start_Streaming")).2 (by decide) (by decide)⟩

/-! ## Source rename: theorems -/

theorem rename_source_map (event : RpcEvent) (midiHooks : List MidiHook) :
    (rename_source event midiHooks).1 = midiHooks.map fun hook =>
      if hook.scene = obs_data_get_string event.additionalFields "previousName" then
        { hook with scene := obs_data_get_string event.additionalFields "newName" }
      else if hook.source = obs_data_get_string event.additionalFields "previousName" then
        { hook with source := obs_data_get_string event.additionalFields "newName" }
      else hook := by
  induction midiHooks with
  | nil => rfl
  | cons hook rest ih =>
    simp only [rename_source, List.map_cons]
    split
    · simp [ih]
    · split <;> simp [ih]

theorem rename_source_effects (event : RpcEvent) (midiHooks : List MidiHook) :
    ∀ e ∈ (rename_source event midiHooks).2, e = Effect.Save := by
  induction midiHooks with
  | nil => simp [rename_source]
  | cons hook rest ih =>
    simp only [rename_source]
    split
    · simpa using ih
    · split
      · simpa using ih
      · simpa using ih

/-- C10 at a hook whose scene and source are both the old name `Cam`: after
the rename to `Cam 2` its scene is `Cam 2` and its source is still `Cam`. -/
theorem rename_source_keeps_source_of_renamed_scene :
    (rename_source
        { updateType := "SourceRenamed",
          additionalFields :=
            [("previousName", obs_data_item.string "Cam"), ("newName", obs_data_item.string "Cam 2")] }
        [{ blank_hook "Note On" 1 0 "Toggle_Source_Visibility" with
            scene := "Cam", source := "Cam" }]).1.map (fun hook => (hook.scene, hook.source)) =
      [("Cam 2", "Cam")] := by
  decide

/-- What `rename_source` from `o` to `n` does field by field: each hook's
scene is `n` if it was `o` and is otherwise unchanged; each hook's source is
`n` if it was `o` and the hook's scene was not `o`, and is otherwise
unchanged; every other field, the number of hooks and their order are
unchanged; no feedback message is sent. -/
theorem rename_source_fields (event : RpcEvent) (midiHooks : List MidiHook) :
    ((rename_source event midiHooks).1.map (fun hook => hook.scene) =
        midiHooks.map fun hook =>
          if hook.scene = obs_data_get_string event.additionalFields "previousName" then
            obs_data_get_string event.additionalFields "newName"
          else hook.scene) ∧
      ((rename_source event midiHooks).1.map (fun hook => hook.source) =
        midiHooks.map fun hook =>
          if hook.source = obs_data_get_string event.additionalFields "previousName" ∧
              hook.scene ≠ obs_data_get_string event.additionalFields "previousName" then
            obs_data_get_string event.additionalFields "newName"
          else hook.source) ∧
      ((rename_source event midiHooks).1.map (fun hook => { hook with scene := "", source := "" }) =
        midiHooks.map fun hook => { hook with scene := "", source := "" }) ∧
      feedbacks (rename_source event midiHooks).2 = [] := by
  refine ⟨?_, ?_, ?_, ?_⟩
  · rw [rename_source_map, List.map_map]
    apply List.map_congr_left
    intro hook _
    simp only [Function.comp]
    split
    · rfl
    · split <;> rfl
  · rw [rename_source_map, List.map_map]
    apply List.map_congr_left
    intro hook _
    simp only [Function.comp]
    by_cases h1 : hook.scene = obs_data_get_string event.additionalFields "previousName"
    · simp [h1]
    · by_cases h2 : hook.source = obs_data_get_string event.additionalFields "previousName"
      · simp [h1, h2]
      · simp [h1, h2]
  · rw [rename_source_map, List.map_map]
    apply List.map_congr_left
    intro hook _
    simp only [Function.comp]
    split
    · rfl
    · split <;> rfl
  · have h := rename_source_effects event midiHooks
    generalize (rename_source event midiHooks).2 = effects at h
    induction effects with
    | nil => rfl
    | cons e rest ih =>
      have he := h e (List.mem_cons_self _ _)
      have hrest := ih (fun x hx => h x (List.mem_cons_of_mem _ hx))
      subst he
      simpa [feedbacks] using hrest

/-! ## Source removal and shutdown: theorems -/

/-- C11 at four hooks with sources `Mic`, `Cam`, `Cam`, `Desktop Audio` and
the removal of `Cam` while the shutdown flag is clear: the first `Cam` hook is
removed, the walk steps over the second, and a hook with source `Cam` is still
there afterwards. -/
theorem remove_source_skips_adjacent_hook :
    (remove_source false
        { updateType := "SourceRemoved",
          additionalFields := [("sourceName", obs_data_item.string "Cam")] }
        [{ blank_hook "Note On" 1 0 "Toggle_Source_Visibility" with source := "Mic" },
          { blank_hook "Note On" 2 0 "Toggle_Source_Visibility" with source := "Cam" },
          { blank_hook "Note On" 3 0 "Toggle_Source_Visibility" with source := "Cam" },
          { blank_hook "Note On" 4 0 "Toggle_Source_Visibility" with
            source := "Desktop Audio" }]).1 =
      [{ blank_hook "Note On" 1 0 "Toggle_Source_Visibility" with source := "Mic" },
        { blank_hook "Note On" 3 0 "Toggle_Source_Visibility" with source := "Cam" },
        { blank_hook "Note On" 4 0 "Toggle_Source_Visibility" with source := "Desktop Audio" }] := by
  decide

/-- C12: with the shutdown flag set, `remove_source` returns the hook sequence
it was given, hook for hook, and does nothing else. -/
theorem remove_source_closing_noop (event : RpcEvent) (midiHooks : List MidiHook) :
    remove_source true event midiHooks = (midiHooks, []) := by
  simp [remove_source]

/-- C13 at an agent past loading with the shutdown flag set that holds a hook
for scene `Cam`: a `SourceRenamed` event from `Cam` to `Cam 2` is not skipped,
the hook's scene is `Cam 2` afterwards. -/
theorem handle_obs_event_renames_while_closing :
    (handle_obs_event
        (sample_agent true [{ blank_hook "Note On" 1 0 "Set_Current_Scene" with scene := "Cam" }])
        { previous_scene_norc := 0, previous_preview_scene_norc := 0, closing := true,
          transitioning := false }
        []
        { updateType := "SourceRenamed",
          additionalFields :=
            [("previousName", obs_data_item.string "Cam"),
              ("newName", obs_data_item.string "Cam 2")] }).1.midiHooks.map
        (fun hook => hook.scene) =
      ["Cam 2"] := by
  decide

/-! ## Feedback transmission and tracked indices: theorems -/

theorem send_message_to_midi_device_closed (self : MidiAgent) (midiout : libremidi.midi_out)
    (message : MidiMessage) (hclosed : midiout.is_port_open = false) :
    send_message_to_midi_device self midiout message = midiout := by
  unfold send_message_to_midi_device libremidi.midi_out.send_message
  simp [hclosed]

theorem send_message_to_midi_device_port (self : MidiAgent) (midiout : libremidi.midi_out)
    (message : MidiMessage) :
    (send_message_to_midi_device self midiout message).is_port_open = midiout.is_port_open := by
  unfold send_message_to_midi_device libremidi.midi_out.send_message
  repeat' split
  all_goals rfl

/-- On an open port `send_message_to_midi_device` transmits one message for
the types `Control Change`, `Note On` and `Note Off`, built from channel, norc
and value each taken modulo 256, and nothing for any other type. -/
theorem send_message_to_midi_device_open (self : MidiAgent) (midiout : libremidi.midi_out)
    (message : MidiMessage) (hopen : midiout.is_port_open = true) :
    send_message_to_midi_device self midiout message =
      { is_port_open := true,
        messages := midiout.messages ++
          (if message.message_type = "Control Change" then
            [libremidi.message.control_change (message.channel % 256) (message.NORC % 256)
              (message.value % 256)]
          else if message.message_type = "Note On" then
            [libremidi.message.note_on (message.channel % 256) (message.NORC % 256)
              (message.value % 256)]
          else if message.message_type = "Note Off" then
            [libremidi.message.note_off (message.channel % 256) (message.NORC % 256)
              (message.value % 256)]
          else []) } := by
  cases midiout with
  | mk is_port_open messages =>
    simp only at hopen
    subst hopen
    unfold send_message_to_midi_device libremidi.midi_out.send_message uint8_t
    by_cases h0 : message.message_type = "none"
    · simp [h0]
    · by_cases h1 : message.message_type = "Control Change"
      · simp [h1]
      · by_cases h2 : message.message_type = "Note On"
        · simp [h2]
        · by_cases h3 : message.message_type = "Note Off"
          · simp [h3]
          · simp [h0, h1, h2, h3]

theorem send_feedback_closed (self : MidiAgent) (to_message : Feedback → MidiMessage)
    (midiout : libremidi.midi_out) (fs : List Feedback)
    (hclosed : midiout.is_port_open = false) :
    send_feedback self to_message midiout fs = midiout := by
  induction fs with
  | nil => rfl
  | cons f rest ih =>
    unfold send_feedback at ih ⊢
    rw [List.foldl_cons, send_message_to_midi_device_closed self midiout _ hclosed]
    exact ih

theorem open_midi_output_port_flag (self : MidiAgent) (midiout : libremidi.midi_out)
    (thrown : Option libremidi.exception) :
    ∃ r, open_midi_output_port self midiout thrown = Except.ok r := by
  unfold open_midi_output_port libremidi.midi_out.open_port
  cases h : midiout.is_port_open
  · cases thrown with
    | none => exact ⟨_, rfl⟩
    | some error => cases error <;> exact ⟨_, rfl⟩
  · exact ⟨_, rfl⟩

/-- The constructor leaves the output port open only with the bidirectional
flag set. -/
theorem ctor_port_open_bidirectional (self : MidiAgent) (attached : Bool)
    (thrown : Option libremidi.exception)
    (hopen : (MidiAgent.ctor self attached thrown).2.is_port_open = true) :
    (MidiAgent.ctor self attached thrown).1.bidirectional = true := by
  unfold MidiAgent.ctor at hopen ⊢
  cases ha : attached
  · simp [ha] at hopen
  · cases hb : self.bidirectional
    · simp [ha, hb] at hopen
    · obtain ⟨r, hr⟩ := open_midi_output_port_flag self
        { is_port_open := false, messages := [] } thrown
      simp [hb, hr]

/-- Each call keeps the output port open only with the bidirectional flag
set. -/
theorem run_port_open_bidirectional (s : MidiAgent × libremidi.midi_out) (call : OutputCall)
    (hs : s.2.is_port_open = true → s.1.bidirectional = true)
    (hopen : (OutputCall.run s call).2.is_port_open = true) :
    (OutputCall.run s call).1.bidirectional = true := by
  cases call with
  | set_bidirectional state thrown =>
    cases state
    · exfalso
      cases hp : s.2.is_port_open <;>
        simp [OutputCall.run, set_bidirectional, libremidi.midi_out.close_port, hp] at hopen
    · obtain ⟨r, hr⟩ := open_midi_output_port_flag { s.1 with bidirectional := true } s.2 thrown
      simp [OutputCall.run, set_bidirectional, hr]
  | close_midi_output_port =>
    exfalso
    cases hp : s.2.is_port_open <;>
      simp [OutputCall.run, close_midi_output_port, libremidi.midi_out.close_port, hp] at hopen
  | close_both_midi_ports =>
    exfalso
    cases hp : s.2.is_port_open <;>
      simp [OutputCall.run, close_midi_output_port, libremidi.midi_out.close_port, hp] at hopen
  | send_message_to_midi_device message =>
    simp only [OutputCall.run, send_message_to_midi_device_port] at hopen ⊢
    exact hs hopen

theorem foldl_run_port_open_bidirectional (calls : List OutputCall)
    (s : MidiAgent × libremidi.midi_out)
    (hs : s.2.is_port_open = true → s.1.bidirectional = true) :
    (calls.foldl OutputCall.run s).2.is_port_open = true →
      (calls.foldl OutputCall.run s).1.bidirectional = true := by
  induction calls generalizing s with
  | nil => exact hs
  | cons call rest ih =>
    rw [List.foldl_cons]
    exact ih _ (run_port_open_bidirectional s call hs)

/-- After construction and any sequence of calls the output port is open only
with the bidirectional flag set. -/
theorem after_port_open_bidirectional (self : MidiAgent) (attached : Bool)
    (thrown : Option libremidi.exception) (calls : List OutputCall) :
    (MidiAgent.after self attached thrown calls).2.is_port_open = true →
      (MidiAgent.after self attached thrown calls).1.bidirectional = true :=
  foldl_run_port_open_bidirectional calls _ (ctor_port_open_bidirectional self attached thrown)

/-- C14: in every state an agent and its output object reach through the
constructor and the calls under `src/` that write the bidirectional flag or
use the output object, a message that `send_message_to_midi_device` transmits
is transmitted with the bidirectional flag set and the port open; with the
flag false or the port closed `send_message_to_midi_device` transmits nothing
and returns, and so does the feedback of `handle_obs_event` for any event,
whatever message the helpers build for it. -/
theorem send_message_to_midi_device_bidirectional_open (self : MidiAgent) (attached : Bool)
    (thrown : Option libremidi.exception) (calls : List OutputCall) (message : MidiMessage)
    (to_message : Feedback → MidiMessage) (st : state) (volumelist : List (String × Rat))
    (event : RpcEvent) :
    ((send_message_to_midi_device (MidiAgent.after self attached thrown calls).1
          (MidiAgent.after self attached thrown calls).2 message).messages ≠
        (MidiAgent.after self attached thrown calls).2.messages →
      (MidiAgent.after self attached thrown calls).1.bidirectional = true ∧
        (MidiAgent.after self attached thrown calls).2.is_port_open = true) ∧
    ((MidiAgent.after self attached thrown calls).1.bidirectional = false ∨
        (MidiAgent.after self attached thrown calls).2.is_port_open = false →
      send_message_to_midi_device (MidiAgent.after self attached thrown calls).1
          (MidiAgent.after self attached thrown calls).2 message =
        (MidiAgent.after self attached thrown calls).2 ∧
      send_feedback (MidiAgent.after self attached thrown calls).1 to_message
          (MidiAgent.after self attached thrown calls).2
          (feedbacks (handle_obs_event (MidiAgent.after self attached thrown calls).1 st
            volumelist event).2.2) =
        (MidiAgent.after self attached thrown calls).2) := by
  have hinv := after_port_open_bidirectional self attached thrown calls
  have hclosed_of : (MidiAgent.after self attached thrown calls).1.bidirectional = false ∨
      (MidiAgent.after self attached thrown calls).2.is_port_open = false →
      (MidiAgent.after self attached thrown calls).2.is_port_open = false := by
    intro h
    rcases h with h | h
    · cases hp : (MidiAgent.after self attached thrown calls).2.is_port_open
      · rfl
      · rw [hinv hp] at h
        exact absurd h (by decide)
    · exact h
  constructor
  · intro hne
    cases hp : (MidiAgent.after self attached thrown calls).2.is_port_open
    · exact absurd (by rw [send_message_to_midi_device_closed _ _ _ hp]) hne
    · exact ⟨hinv hp, rfl⟩
  · intro h
    exact ⟨send_message_to_midi_device_closed _ _ _ (hclosed_of h),
      send_feedback_closed _ _ _ _ (hclosed_of h)⟩

/-- C14 at an attached agent loaded with the bidirectional flag set, whose
port the constructor opened, after `set_bidirectional(false)`: the port is
closed, and a note-on feedback message is not transmitted. -/
theorem send_message_to_midi_device_bidirectional_open_witness :
    (MidiAgent.after (sample_agent true []) true none
        [OutputCall.set_bidirectional false none]).1.bidirectional = false ∧
      send_message_to_midi_device
          (MidiAgent.after (sample_agent true []) true none
            [OutputCall.set_bidirectional false none]).1
          (MidiAgent.after (sample_agent true []) true none
            [OutputCall.set_bidirectional false none]).2
          { message_type := "Note On", NORC := 1, channel := 0, value := 127,
            device_name := "" } =
        { is_port_open := false, messages := [] } :=
  ⟨by decide,
    ((send_message_to_midi_device_bidirectional_open (sample_agent true []) true none
      [OutputCall.set_bidirectional false none]
      { message_type := "Note On", NORC := 1, channel := 0, value := 127, device_name := "" }
      (fun _ => sample_message)
      { previous_scene_norc := 0, previous_preview_scene_norc := 0, closing := false,
        transitioning := false }
      [] { updateType := "SwitchScenes", additionalFields := [] }).2 (Or.inl (by decide))).1.trans
      (by decide)⟩

/-- C15 as stated fails: agent `A` holds a hook on note 5 and agent `B` hooks
on notes 1 and 2, all for scene changes, and note 1 is the index tracked for
`B`. After `A` has handled the change to scene `Main`, the same event makes
`B` send "off" for note 5, which is a hook of `A`, and not for note 1. -/
theorem handle_obs_event_shares_previous_scene :
    feedbacks (handle_obs_event
        (sample_agent true
          [{ blank_hook "Note On" 1 0 "Set_Current_Scene" with scene := "Intro" },
            { blank_hook "Note On" 2 0 "Set_Current_Scene" with scene := "Main" }])
        (handle_obs_event
          (sample_agent true [{ blank_hook "Note On" 5 0 "Set_Current_Scene" with scene := "Main" }])
          { previous_scene_norc := 1, previous_preview_scene_norc := 0, closing := false,
            transitioning := false }
          []
          { updateType := "SwitchScenes",
            additionalFields := [("scene-name", obs_data_item.string "Main")] }).2.1
        []
        { updateType := "SwitchScenes",
          additionalFields := [("scene-name", obs_data_item.string "Main")] }).2.2 =
      [Feedback.off
          { message_type := "Note On", NORC := 5, channel := 0, value := 0, device_name := "" },
        Feedback.on
          { message_type := "Note On", NORC := 2, channel := 0, value := 0, device_name := "" }] := by
  decide

theorem handle_hooked_event_scene (st : state) (hook : MidiHook) (event : RpcEvent)
    (hkind : event.updateType = "SwitchScenes" ∨ event.updateType = "SceneChanged") :
    handle_hooked_event st hook event =
      ({ st with previous_scene_norc := hook.norc },
        Macro.swap_buttons hook.get_message_from_hook st.previous_scene_norc hook.norc) := by
  have hk : Events.string_to_event event.updateType = some .SwitchScenes ∨
      Events.string_to_event event.updateType = some .SceneChanged := by
    rcases hkind with h | h
    · left; rw [h]; decide
    · right; rw [h]; decide
  rcases hk with hk | hk <;> simp [handle_hooked_event, hk]

theorem handle_hooked_event_preview (st : state) (hook : MidiHook) (event : RpcEvent)
    (hkind : event.updateType = "PreviewSceneChanged") :
    handle_hooked_event st hook event =
      ({ st with previous_preview_scene_norc := hook.norc },
        Macro.swap_buttons hook.get_message_from_hook st.previous_preview_scene_norc
          hook.norc) := by
  have hk : Events.string_to_event event.updateType = some .PreviewSceneChanged := by
    rw [hkind]; decide
  simp [handle_hooked_event, hk]

theorem scene_kind_ne_FinishedLoading (event : RpcEvent)
    (hkind : event.updateType = "SwitchScenes" ∨ event.updateType = "SceneChanged" ∨
      event.updateType = "PreviewSceneChanged") :
    event.updateType ≠ "FinishedLoading" := by
  rcases hkind with h | h | h <;> rw [h] <;> decide

/-- C15, amended: the tracked scene index and the tracked preview-scene index
are process-wide, one pair for all agents. After agent `A` has handled a scene
change matched to its hook `hookA`, the tracked scene index that agent `B`
reads is the index of `hookA`, and on its next scene change, matched to
`hookB`, `B` sends its "off" message for the index of `hookA` (when that
differs from the index of `hookB`), then "on" for `hookB`. The same holds for
preview-scene changes and the tracked preview-scene index. -/
theorem handle_obs_event_tracked_indices_shared (A B : MidiAgent) (st : state)
    (volumelist : List (String × Rat)) (eventA eventB : RpcEvent) (hookA hookB : MidiHook)
    (hloadedA : A.loading = false) (hloadedB : B.loading = false)
    (hmatchedA : get_midi_hook_if_exists eventA A.midiHooks = some hookA)
    (hmatchedB : get_midi_hook_if_exists eventB B.midiHooks = some hookB) :
    ((eventA.updateType = "SwitchScenes" ∨ eventA.updateType = "SceneChanged") →
        (eventB.updateType = "SwitchScenes" ∨ eventB.updateType = "SceneChanged") →
        (handle_obs_event A st volumelist eventA).2.1.previous_scene_norc = hookA.norc ∧
          feedbacks (handle_obs_event B (handle_obs_event A st volumelist eventA).2.1
            volumelist eventB).2.2 =
            (if hookA.norc ≠ hookB.norc then
                [Feedback.off { hookB.get_message_from_hook with NORC := hookA.norc }]
              else []) ++
              [Feedback.on { hookB.get_message_from_hook with NORC := hookB.norc }]) ∧
      (eventA.updateType = "PreviewSceneChanged" → eventB.updateType = "PreviewSceneChanged" →
        (handle_obs_event A st volumelist eventA).2.1.previous_preview_scene_norc =
            hookA.norc ∧
          feedbacks (handle_obs_event B (handle_obs_event A st volumelist eventA).2.1
            volumelist eventB).2.2 =
            (if hookA.norc ≠ hookB.norc then
                [Feedback.off { hookB.get_message_from_hook with NORC := hookA.norc }]
              else []) ++
              [Feedback.on { hookB.get_message_from_hook with NORC := hookB.norc }]) := by
  constructor
  · intro hkA hkB
    have hneA := scene_kind_ne_FinishedLoading eventA
      (hkA.elim Or.inl fun h => Or.inr (Or.inl h))
    have hneB := scene_kind_ne_FinishedLoading eventB
      (hkB.elim Or.inl fun h => Or.inr (Or.inl h))
    rw [handle_obs_event_hooked A st volumelist eventA hookA hloadedA hneA hmatchedA,
      handle_obs_event_hooked B _ volumelist eventB hookB hloadedB hneB hmatchedB,
      feedbacks_map_feedback, handle_hooked_event_scene st hookA eventA hkA,
      handle_hooked_event_scene _ hookB eventB hkB]
    simp [Macro.swap_buttons]
  · intro hkA hkB
    have hneA := scene_kind_ne_FinishedLoading eventA (Or.inr (Or.inr hkA))
    have hneB := scene_kind_ne_FinishedLoading eventB (Or.inr (Or.inr hkB))
    rw [handle_obs_event_hooked A st volumelist eventA hookA hloadedA hneA hmatchedA,
      handle_obs_event_hooked B _ volumelist eventB hookB hloadedB hneB hmatchedB,
      feedbacks_map_feedback, handle_hooked_event_preview st hookA eventA hkA,
      handle_hooked_event_preview _ hookB eventB hkB]
    simp [Macro.swap_buttons]

/-- C15, amended, at two agents with one preview hook each, on notes 7 and 8:
after the first has handled a preview change, the second sends "off" for
note 7. -/
theorem handle_obs_event_tracked_indices_shared_witness :
    feedbacks (handle_obs_event
        (sample_agent true [{ blank_hook "Note On" 8 0 "Set_Preview_Scene" with scene := "Main" }])
        (handle_obs_event
          (sample_agent true
            [{ blank_hook "Note On" 7 0 "Set_Preview_Scene" with scene := "Main" }])
          { previous_scene_norc := 0, previous_preview_scene_norc := 0, closing := false,
            transitioning := false }
          []
          { updateType := "PreviewSceneChanged",
            additionalFields := [("scene-name", obs_data_item.string "Main")] }).2.1
        []
        { updateType := "PreviewSceneChanged",
          additionalFields := [("scene-name", obs_data_item.string "Main")] }).2.2 =
      [Feedback.off
          { message_type := "Note On", NORC := 7, channel := 0, value := 0, device_name := "" },
        Feedback.on
          { message_type := "Note On", NORC := 8, channel := 0, value := 0, device_name := "" }] :=
  (((handle_obs_event_tracked_indices_shared
    (sample_agent true [{ blank_hook "Note On" 7 0 "Set_Preview_Scene" with scene := "Main" }])
    (sample_agent true [{ blank_hook "Note On" 8 0 "Set_Preview_Scene" with scene := "Main" }])
    { previous_scene_norc := 0, previous_preview_scene_norc := 0, closing := false,
      transitioning := false }
    []
    { updateType := "PreviewSceneChanged",
      additionalFields := [("scene-name", obs_data_item.string "Main")] }
    { updateType := "PreviewSceneChanged",
      additionalFields := [("scene-name", obs_data_item.string "Main")] }
    { blank_hook "Note On" 7 0 "Set_Preview_Scene" with scene := "Main" }
    { blank_hook "Note On" 8 0 "Set_Preview_Scene" with scene := "Main" }
    rfl rfl (by decide) (by decide)).2 rfl rfl).2).trans (by decide)

/-! ## Command registry: theorems -/

theorem Actions_init_of_populated (map : action_map) (h : map ≠ []) : Actions.init map = map := by
  cases map with
  | nil => exact absurd rfl h
  | cons e rest => simp [Actions.init]

theorem make_action_of_registered (map : action_map) (action : String) (act : Option Actions)
    (h : map.lookup action = some act) : Actions.make_action map action = (map, act) := by
  simp [Actions.make_action, QMap.index, h]

set_option maxRecDepth 100000 in
/-- C16 at the registry as `make_map` fills it and the name
`Unpause_Recording`, which is a command kind but has no entry: the one-argument
`make_action` returns a null command, and the two-argument `make_action`
calls `set_hook` through that null pointer. -/
theorem make_action_unregistered_null :
    (Actions.make_map []).lookup "Unpause_Recording" = none ∧
      (Actions.make_action (Actions.make_map []) "Unpause_Recording").2 = none ∧
      Actions.make_action_with_hook (Actions.make_map []) "Unpause_Recording"
        (blank_hook "Note On" 1 0 "Unpause_Recording") = none := by
  decide

set_option maxRecDepth 100000 in
/-- C17 at the registry as `make_map` fills it and the name
`Unpause_Recording`: after `make_action` the registry has one key more, the
name itself, with a null command under it. -/
theorem make_action_unregistered_adds_key :
    registered (Actions.make_action (Actions.make_map []) "Unpause_Recording").1 =
      registered (Actions.make_map []) ++ [("Unpause_Recording", none)] := by
  decide

/-! ## Command bodies: theorems -/

theorem mapper_cube_mono (v w : Int) (hv : 0 ≤ v) (hvw : v ≤ w) :
    Utils.mapper v ^ 3 ≤ Utils.mapper w ^ 3 := by
  unfold Utils.mapper
  have h0 : (0 : Rat) ≤ (v : Rat) / 127 := by
    apply div_nonneg
    · exact_mod_cast hv
    · norm_num
  have h1 : (v : Rat) / 127 ≤ (w : Rat) / 127 := by
    apply div_le_div_of_nonneg_right
    · exact_mod_cast hvw
    · norm_num
  exact pow_le_pow_left₀ h0 h1 3

/-- C18: `SetVolume::execute` on a hook that recorded the value `v` sets the
volume of every source named by the hook's audio source to `(v/127)^3` and
leaves the other sources alone; over the rationals the level `(v/127)^3` does
not decrease when `v` grows from 0 on, is 0 at 0, 1 at 127 and `(64/127)^3` at
64. -/
theorem SetVolume_execute_level (hook : MidiHook) (sources : List (String × Rat)) (v w : Int) :
    (hook.value = some v →
        SetVolume.execute hook sources =
          some (sources.map fun s =>
            if s.1 = hook.audio_source then (s.1, ((v : Rat) / 127) ^ 3) else s)) ∧
      (0 ≤ v → v ≤ w → Utils.mapper v ^ 3 ≤ Utils.mapper w ^ 3) ∧
      Utils.mapper 0 ^ 3 = 0 ∧ Utils.mapper 127 ^ 3 = 1 ∧
      Utils.mapper 64 ^ 3 = ((64 : Rat) / 127) ^ 3 := by
  refine ⟨?_, mapper_cube_mono v w, ?_, ?_, ?_⟩
  · intro hv
    simp [SetVolume.execute, hv, Utils.mapper]
  · norm_num [Utils.mapper]
  · norm_num [Utils.mapper]
  · norm_num [Utils.mapper]

/-- C18 at the scenario of the specification: a hook for `Mic` that recorded
64, and the values 64 and 127. -/
theorem SetVolume_execute_level_witness :
    SetVolume.execute
        { blank_hook "Control Change" 7 0 "Set_Volume" with
          audio_source := "Mic", value := some 64 }
        [("Mic", 1), ("Desktop Audio", 1)] =
        some [("Mic", ((64 : Rat) / 127) ^ 3), ("Desktop Audio", 1)] ∧
      Utils.mapper 64 ^ 3 ≤ Utils.mapper 127 ^ 3 :=
  ⟨((SetVolume_execute_level
      { blank_hook "Control Change" 7 0 "Set_Volume" with audio_source := "Mic", value := some 64 }
      [("Mic", 1), ("Desktop Audio", 1)] 64 127).1 rfl).trans (by simp [blank_hook]),
    (SetVolume_execute_level
      { blank_hook "Control Change" 7 0 "Set_Volume" with audio_source := "Mic", value := some 64 }
      [("Mic", 1), ("Desktop Audio", 1)] 64 127).2.1 (by decide) (by decide)⟩

theorem lookup_none_iff_no_source (sources : List (String × Bool)) (name : String) :
    sources.lookup name = none ↔ ∀ s ∈ sources, s.1 ≠ name := by
  induction sources with
  | nil => simp
  | cons s rest ih =>
    obtain ⟨k, b⟩ := s
    by_cases hk : name = k
    · subst hk
      simp [List.lookup]
    · have hk2 : (name == k) = false := by simpa using hk
      have hk3 : k ≠ name := fun h => hk h.symm
      simp [List.lookup, hk2, ih, hk3]

/-- C19: `ToggleMute::execute` raises "sourceName is empty" iff the hook's
audio source is empty, and "sourceName not found" iff it is not empty and no
source of the application has that name; when it raises, the application is
as it was; when it does not, the mute state of each source with that name is
inverted and every other source, with the rest of the application, is as it
was. -/
theorem ToggleMute_execute_errors (hook : MidiHook) (app : Obs) :
    ((ToggleMute.execute hook app).thrown = some "sourceName is empty" ↔
        hook.audio_source = "") ∧
      ((ToggleMute.execute hook app).thrown = some "sourceName not found" ↔
        hook.audio_source ≠ "" ∧ ∀ s ∈ app.sources, s.1 ≠ hook.audio_source) ∧
      ((ToggleMute.execute hook app).thrown ≠ none → (ToggleMute.execute hook app).app = app) ∧
      ((ToggleMute.execute hook app).thrown = none →
        (ToggleMute.execute hook app).app =
          { app with sources := app.sources.map fun s =>
              if s.1 = hook.audio_source then (s.1, !s.2) else s }) := by
  by_cases hempty : hook.audio_source = ""
  · have he : hook.audio_source.isEmpty = true := (String.isEmpty_iff _).mpr hempty
    have hex : ToggleMute.execute hook app =
        { thrown := some "sourceName is empty", scene := hook.scene, app := app } := by
      simp only [ToggleMute.execute, he, if_true]
    rw [hex]
    refine ⟨?_, ?_, ?_, ?_⟩
    · exact ⟨fun _ => hempty, fun _ => rfl⟩
    · constructor
      · intro h
        have h2 : "sourceName is empty" = "sourceName not found" := Option.some.inj h
        exact absurd h2 (by decide)
      · intro h
        exact absurd hempty h.1
    · intro _
      trivial
    · intro h
      exact absurd h (by simp)
  · have he : hook.audio_source.isEmpty = false := by
      rw [Bool.eq_false_iff]
      exact fun h => hempty ((String.isEmpty_iff _).mp h)
    cases hl : app.sources.lookup hook.audio_source with
    | none =>
      have hno := (lookup_none_iff_no_source app.sources hook.audio_source).mp hl
      have hex : ToggleMute.execute hook app =
          { thrown := some "sourceName not found", scene := hook.scene, app := app } := by
        simp only [ToggleMute.execute, he, hl]
        rfl
      rw [hex]
      refine ⟨?_, ?_, ?_, ?_⟩
      · constructor
        · intro h
          have h2 : "sourceName not found" = "sourceName is empty" := Option.some.inj h
          exact absurd h2 (by decide)
        · intro h
          exact absurd h hempty
      · exact ⟨fun _ => ⟨hempty, hno⟩, fun _ => rfl⟩
      · intro _
        trivial
      · intro h
        exact absurd h (by simp)
    | some muted =>
      have hsome : ¬ ∀ s ∈ app.sources, s.1 ≠ hook.audio_source := by
        intro h
        have := (lookup_none_iff_no_source app.sources hook.audio_source).mpr h
        rw [hl] at this
        exact absurd this (by simp)
      have hex : ToggleMute.execute hook app =
          { thrown := none, scene := hook.scene,
            app := { app with sources := app.sources.map fun s =>
              if s.1 = hook.audio_source then (s.1, !s.2) else s } } := by
        simp only [ToggleMute.execute, he, hl]
        rfl
      rw [hex]
      refine ⟨?_, ?_, ?_, ?_⟩
      · constructor
        · intro h
          exact absurd h (by simp)
        · intro h
          exact absurd h hempty
      · constructor
        · intro h
          exact absurd h (by simp)
        · intro h
          exact absurd h.2 hsome
      · intro h
        exact absurd rfl h
      · intro _
        rfl

/-- C19 at a hook for `Mic` and an application without `Mic`, and at a hook
for `Desktop Audio`, which the application has. -/
theorem ToggleMute_execute_errors_witness :
    (ToggleMute.execute { blank_hook "Note On" 1 0 "Toggle_Mute" with audio_source := "Mic" }
        sample_app).app = sample_app ∧
      (ToggleMute.execute
        { blank_hook "Note On" 1 0 "Toggle_Mute" with audio_source := "Desktop Audio" }
        sample_app).app =
        { sample_app with sources := [("Desktop Audio", true)] } :=
  ⟨(ToggleMute_execute_errors
      { blank_hook "Note On" 1 0 "Toggle_Mute" with audio_source := "Mic" } sample_app).2.2.1
      (by decide),
    ((ToggleMute_execute_errors
      { blank_hook "Note On" 1 0 "Toggle_Mute" with audio_source := "Desktop Audio" }
      sample_app).2.2.2 (by decide)).trans (by decide)⟩

/-- C20 at a hook for the scene `Credits`, which the application does not
have, with studio mode on: the command logs that the scene does not exist and
then still calls `obs_frontend_set_current_preview_scene`, with a null
source. -/
theorem SetPreviewScene_execute_missing_scene :
    (if "Credits" ∈ sample_app.scenes then some "Credits" else none) = none ∧
      SetPreviewScene.execute true
          (fun name => if name ∈ sample_app.scenes then some name else none)
          { blank_hook "Note On" 1 0 "Set_Preview_Scene" with scene := "Credits" } =
        [ObsCall.blog "specified scene doesn't exist",
          ObsCall.obs_frontend_set_current_preview_scene none] := by
  decide

/-! ## Transition to program: theorems -/

/-- C21: with `state::transitioning` set, `TransitionToProgram::execute`
makes no call to the application, leaves the transition bookkeeping and the
hook as they were, and returns without an error. -/
theorem TransitionToProgram_execute_transitioning_noop (frontend : obs_frontend)
    (ts : transition_state) (hook : MidiHook) :
    TransitionToProgram.execute true frontend ts hook = some (hook, ts, []) := by
  simp [TransitionToProgram.execute]

/-- Whenever `TransitionToProgram::execute` returns, every field of the hook
other than its scene is as it was; the scene is replaced by the name of the
current scene when it is the placeholder `Preview Scene` and no transition is
in flight, and is left as it was in every other case. -/
theorem TransitionToProgram_execute_hook (transitioning : Bool) (frontend : obs_frontend)
    (ts : transition_state) (hook : MidiHook)
    (r : MidiHook × transition_state × List FrontendCall)
    (hr : TransitionToProgram.execute transitioning frontend ts hook = some r) :
    r.1 =
      { hook with scene :=
          if transitioning = false ∧ hook.scene = "Preview Scene" then frontend.current_scene
          else hook.scene } := by
  cases transitioning
  · cases hm : frontend.preview_program_mode_active
    · simp [TransitionToProgram.execute, hm] at hr
    · by_cases h : hook.scene = "Preview Scene"
      · simp [TransitionToProgram.execute, hm, h] at hr
        simp [← hr, h]
      · simp [TransitionToProgram.execute, hm, h] at hr
        simp [← hr, h]
  · simp [TransitionToProgram.execute] at hr
    simp [← hr]

/-- With studio mode off and no transition in flight
`TransitionToProgram::execute` does not return a result, whatever the hook. -/
theorem TransitionToProgram_execute_studio_mode_off (frontend : obs_frontend)
    (ts : transition_state) (hook : MidiHook)
    (hoff : frontend.preview_program_mode_active = false) :
    TransitionToProgram.execute false frontend ts hook = none := by
  simp [TransitionToProgram.execute, hoff]

/-- C28 fails on a hook whose scene is the placeholder `Preview Scene`,
executed in studio mode while no transition is in flight and the current scene
is `Main`: the call returns the hook with scene `Main`, not with the
placeholder. Executed again when the current scene is `Intro`, the returned
hook keeps `Main`, where a hook that still held the placeholder would be given
`Intro`: the two executions do not resolve the scene the same way. -/
theorem TransitionToProgram_execute_rewrites_placeholder :
    (TransitionToProgram.execute false
        { transition_duration := 300, current_transition := "Fade", current_scene := "Main",
          preview_program_mode_active := true }
        { _CurrentTransitionDuration := 0, _CurrentTransition := "", _TransitionWasCalled := false }
        { blank_hook "Note On" 1 0 "Do_Transition" with scene := "Preview Scene" }).map
        (fun r => r.1) =
        some { blank_hook "Note On" 1 0 "Do_Transition" with scene := "Main" } ∧
      (TransitionToProgram.execute false
        { transition_duration := 300, current_transition := "Fade", current_scene := "Intro",
          preview_program_mode_active := true }
        { _CurrentTransitionDuration := 300, _CurrentTransition := "Fade",
          _TransitionWasCalled := true }
        { blank_hook "Note On" 1 0 "Do_Transition" with scene := "Main" }).map
        (fun r => r.1) =
        some { blank_hook "Note On" 1 0 "Do_Transition" with scene := "Main" } ∧
      (TransitionToProgram.execute false
        { transition_duration := 300, current_transition := "Fade", current_scene := "Intro",
          preview_program_mode_active := true }
        { _CurrentTransitionDuration := 300, _CurrentTransition := "Fade",
          _TransitionWasCalled := true }
        { blank_hook "Note On" 1 0 "Do_Transition" with scene := "Preview Scene" }).map
        (fun r => r.1) =
        some { blank_hook "Note On" 1 0 "Do_Transition" with scene := "Intro" } := by
  decide

/-! ## Opening the ports: theorems -/

/-- C22: `open_midi_input_port` and `open_midi_output_port` on an open port
call nothing and leave the port as it is; on a closed port they return
without an error whatever the library's `open_port` throws, and the port is
then still closed; when `open_port` succeeds the port is open. -/
theorem open_midi_port_idempotent_and_safe (self : MidiAgent) (midiin : libremidi.midi_in)
    (midiout : libremidi.midi_out) (thrown : Option libremidi.exception) :
    (midiin.is_port_open = true →
        open_midi_input_port self midiin thrown = Except.ok (midiin, [])) ∧
      (midiout.is_port_open = true →
        open_midi_output_port self midiout thrown = Except.ok (midiout, [])) ∧
      (midiin.is_port_open = false → thrown ≠ none →
        ∃ calls, open_midi_input_port self midiin thrown = Except.ok (midiin, calls)) ∧
      (midiout.is_port_open = false → thrown ≠ none →
        ∃ calls, open_midi_output_port self midiout thrown = Except.ok (midiout, calls)) ∧
      (midiin.is_port_open = false → thrown = none →
        ∃ calls, open_midi_input_port self midiin thrown =
          Except.ok ({ midiin with is_port_open := true }, calls)) ∧
      (midiout.is_port_open = false → thrown = none →
        ∃ calls, open_midi_output_port self midiout thrown =
          Except.ok ({ midiout with is_port_open := true }, calls)) := by
  refine ⟨?_, ?_, ?_, ?_, ?_, ?_⟩
  · intro h
    simp [open_midi_input_port, h]
  · intro h
    simp [open_midi_output_port, h]
  · intro h hthrown
    cases thrown with
    | none => exact absurd rfl hthrown
    | some error =>
      cases error <;>
        simp [open_midi_input_port, h, libremidi.midi_in.open_port]
  · intro h hthrown
    cases thrown with
    | none => exact absurd rfl hthrown
    | some error =>
      cases error <;>
        simp [open_midi_output_port, h, libremidi.midi_out.open_port]
  · intro h hthrown
    subst hthrown
    simp [open_midi_input_port, h, libremidi.midi_in.open_port]
  · intro h hthrown
    subst hthrown
    simp [open_midi_output_port, h, libremidi.midi_out.open_port]

/-- C22 at a closed input port whose `open_port` throws a driver error, and
at a closed output port whose `open_port` succeeds. -/
theorem open_midi_port_idempotent_and_safe_witness :
    (∃ calls, open_midi_input_port (sample_agent true []) { is_port_open := false }
        (some libremidi.exception.driver_error) =
        Except.ok ({ is_port_open := false }, calls)) ∧
      (∃ calls, open_midi_output_port (sample_agent true [])
        { is_port_open := false, messages := [] } none =
        Except.ok ({ is_port_open := true, messages := [] }, calls)) :=
  ⟨(open_midi_port_idempotent_and_safe (sample_agent true []) { is_port_open := false }
      { is_port_open := false, messages := [] } (some libremidi.exception.driver_error)).2.2.1
      rfl (by decide),
    (open_midi_port_idempotent_and_safe (sample_agent true []) { is_port_open := false }
      { is_port_open := false, messages := [] } none).2.2.2.2.2 rfl rfl⟩

/-! ## Saving and loading: theorems -/

theorem map_roundtrip {δ : Type} (hook_GetData : MidiHook → δ) (hook_of_json : δ → MidiHook)
    (hround : ∀ hook, hook_of_json (hook_GetData hook) = hook) (midiHooks : List MidiHook) :
    (midiHooks.map hook_GetData).map hook_of_json = midiHooks := by
  induction midiHooks with
  | nil => rfl
  | cons hook rest ih => simp [hround, ih]

/-- C23: when saving and reading back a single hook gives the hook back,
loading what `GetData` made of an agent into a fresh agent, one without
hooks, gives the same input name, output name, enabled flag and bidirectional
flag and the same hooks in the same order; and a record without the keys
`enabled` and `bidirectional` loads with both flags false. -/
theorem Load_GetData_roundtrip {δ : Type} (hook_GetData : MidiHook → δ)
    (hook_of_json : δ → MidiHook) (get_input_port_number get_output_port_number : String → Int)
    (a fresh : MidiAgent) (data : device_data δ)
    (hround : ∀ hook, hook_of_json (hook_GetData hook) = hook)
    (hfresh : fresh.midiHooks = []) :
    ((Load hook_of_json get_input_port_number get_output_port_number fresh
          (GetData hook_GetData a)).midi_input_name = a.midi_input_name ∧
        (Load hook_of_json get_input_port_number get_output_port_number fresh
          (GetData hook_GetData a)).midi_output_name = a.midi_output_name ∧
        (Load hook_of_json get_input_port_number get_output_port_number fresh
          (GetData hook_GetData a)).enabled = a.enabled ∧
        (Load hook_of_json get_input_port_number get_output_port_number fresh
          (GetData hook_GetData a)).bidirectional = a.bidirectional ∧
        (Load hook_of_json get_input_port_number get_output_port_number fresh
          (GetData hook_GetData a)).midiHooks = a.midiHooks) ∧
      (data.settings.lookup "enabled" = none → data.settings.lookup "bidirectional" = none →
        (Load hook_of_json get_input_port_number get_output_port_number fresh data).enabled =
            false ∧
          (Load hook_of_json get_input_port_number get_output_port_number fresh
            data).bidirectional = false) := by
  refine ⟨⟨?_, ?_, ?_, ?_, ?_⟩, ?_⟩
  · simp [Load, GetData, obs_data_get_string, List.lookup]
  · simp [Load, GetData, obs_data_get_string, List.lookup]
  · simp [Load, GetData, obs_data_get_bool, List.lookup]
  · simp [Load, GetData, obs_data_get_bool, List.lookup]
  · simp only [Load, GetData, hfresh, List.nil_append]
    exact map_roundtrip hook_GetData hook_of_json hround a.midiHooks
  · intro he hb
    simp [Load, obs_data_get_bool, he, hb]

/-- C23 with the hook itself as its saved form, at an enabled agent with one
hook, and at a record that has a name only. -/
theorem Load_GetData_roundtrip_witness :
    (Load id (fun _ => 0) (fun _ => 0) (sample_agent false [])
        (GetData id (sample_agent true [blank_hook "Note On" 1 0 "Toggle_Mute"]))).midiHooks =
        [blank_hook "Note On" 1 0 "Toggle_Mute"] ∧
      (Load id (fun _ => 0) (fun _ => 0) (sample_agent true [])
        { settings := [("name", obs_data_item.string "nanoKONTROL")], hooks := [] }).enabled =
        false :=
  ⟨(Load_GetData_roundtrip id id (fun _ => 0) (fun _ => 0)
      (sample_agent true [blank_hook "Note On" 1 0 "Toggle_Mute"]) (sample_agent false [])
      { settings := [], hooks := [] } (fun _ => rfl) rfl).1.2.2.2.2,
    ((Load_GetData_roundtrip id id (fun _ => 0) (fun _ => 0) (sample_agent true [])
      (sample_agent true [])
      { settings := [("name", obs_data_item.string "nanoKONTROL")], hooks := [] }
      (fun _ => rfl) rfl).2 (by decide) (by decide)).1⟩

/-! ## Configuration window: theorems -/

theorem row_hook_items (toInt : String → Int) (row : TableRow) :
    ConfigWindow.row_hook toInt row.items =
      some { type := row.column0, index := toInt row.column1, action := row.column3,
             command := row.column4, param1 := row.column5, param2 := row.column6,
             param3 := row.column7 } := by
  rfl

theorem save_rows_items (toInt : String → Int) (hooks : List ConfigWindow.MidiHook)
    (rows : List TableRow) :
    ConfigWindow.save_rows toInt hooks (rows.map TableRow.items) =
      some (hooks ++ rows.map fun row =>
        { type := row.column0, index := toInt row.column1, action := row.column3,
          command := row.column4, param1 := row.column5, param2 := row.column6,
          param3 := row.column7 }) := by
  induction rows generalizing hooks with
  | nil => simp [ConfigWindow.save_rows]
  | cons row rest ih =>
    simp only [List.map_cons, ConfigWindow.save_rows, row_hook_items, ih, AddMidiHook,
      List.append_assoc, List.singleton_append]

/-- C24: for a table of rows that hold an item in each of their eight columns,
whatever hooks the device held, after `ConfigWindow::save` the device holds
one hook for each row, in row order, the hook of a row having the text of
column 0 as type, of column 1 read as an integer as index, and of columns 3,
4, 5, 6 and 7 as action, command, param1, param2 and param3; every hook it
holds is the hook of a row, so none is kept from before; with an empty table,
as `clearTable` saves it, it holds no hook. -/
theorem ConfigWindow_save_replaces_hooks (toInt : String → Int)
    (device_hooks : List ConfigWindow.MidiHook) (rows : List TableRow) :
    ConfigWindow.save toInt device_hooks (rows.map TableRow.items) =
        some (rows.map fun row =>
          { type := row.column0, index := toInt row.column1, action := row.column3,
            command := row.column4, param1 := row.column5, param2 := row.column6,
            param3 := row.column7 }) ∧
      (∀ hooks, ConfigWindow.save toInt device_hooks (rows.map TableRow.items) = some hooks →
        hooks.length = rows.length ∧
          ∀ hook ∈ hooks, ∃ row ∈ rows,
            hook = { type := row.column0, index := toInt row.column1, action := row.column3,
                     command := row.column4, param1 := row.column5, param2 := row.column6,
                     param3 := row.column7 }) ∧
      ConfigWindow.save toInt device_hooks [] = some [] ∧
      ConfigWindow.clearTable toInt device_hooks = some [] := by
  have h : ConfigWindow.save toInt device_hooks (rows.map TableRow.items) =
      some (rows.map fun row =>
        { type := row.column0, index := toInt row.column1, action := row.column3,
          command := row.column4, param1 := row.column5, param2 := row.column6,
          param3 := row.column7 }) := by
    simp [ConfigWindow.save, save_rows_items, ClearMidiHooks]
  refine ⟨h, ?_, rfl, rfl⟩
  intro hooks hhooks
  rw [h] at hhooks
  have hh := Option.some.inj hhooks
  subst hh
  refine ⟨List.length_map _ _, ?_⟩
  intro hook hmem
  obtain ⟨row, hrow, heq⟩ := List.mem_map.mp hmem
  exact ⟨row, hrow, heq.symm⟩

/-- C24 at a device that holds one hook and a table of two rows. -/
theorem ConfigWindow_save_replaces_hooks_witness :
    ConfigWindow.save (fun text => if text = "7" then 7 else 0)
        [{ type := "note_on", index := 1, action := "Button", command := "Set Mute",
           param1 := "Mic/Aux", param2 := "", param3 := "" }]
        [["control_change", "7", "false", "Fader", "Set Volume", "Desktop Audio", "", ""],
          ["note_on", "x", "false", "Button", "Set Mute", "Mic/Aux", "a", "b"]] =
      some [{ type := "control_change", index := 7, action := "Fader", command := "Set Volume",
              param1 := "Desktop Audio", param2 := "", param3 := "" },
            { type := "note_on", index := 0, action := "Button", command := "Set Mute",
              param1 := "Mic/Aux", param2 := "a", param3 := "b" }] :=
  (ConfigWindow_save_replaces_hooks (fun text => if text = "7" then 7 else 0)
    [{ type := "note_on", index := 1, action := "Button", command := "Set Mute",
       param1 := "Mic/Aux", param2 := "", param3 := "" }]
    [{ column0 := "control_change", column1 := "7", column2 := "false", column3 := "Fader",
       column4 := "Set Volume", column5 := "Desktop Audio", column6 := "", column7 := "" },
      { column0 := "note_on", column1 := "x", column2 := "false", column3 := "Button",
        column4 := "Set Mute", column5 := "Mic/Aux", column6 := "a", column7 := "b" }]).1

/-! ## Events behind a matched hook: theorems -/

/-- C26 at an agent past loading, shutdown flag clear, that holds a
`Do_Transition` hook without scene and a hook for source `Cam`: the
`SourceRenamed` event from `Cam` to `Cam 2` and the `SourceRemoved` event of
`Cam` are both matched to the first hook and change no hook. -/
theorem handle_obs_event_rename_remove_shadowed :
    (handle_obs_event
        (sample_agent true
          [blank_hook "Note On" 9 0 "Do_Transition",
            { blank_hook "Note On" 2 0 "Toggle_Source_Visibility" with
              scene := "Main", source := "Cam" }])
        { previous_scene_norc := 0, previous_preview_scene_norc := 0, closing := false,
          transitioning := false }
        []
        { updateType := "SourceRenamed",
          additionalFields :=
            [("previousName", obs_data_item.string "Cam"),
              ("newName", obs_data_item.string "Cam 2")] }).1.midiHooks =
        [blank_hook "Note On" 9 0 "Do_Transition",
          { blank_hook "Note On" 2 0 "Toggle_Source_Visibility" with
            scene := "Main", source := "Cam" }] ∧
      (handle_obs_event
        (sample_agent true
          [blank_hook "Note On" 9 0 "Do_Transition",
            { blank_hook "Note On" 2 0 "Toggle_Source_Visibility" with
              scene := "Main", source := "Cam" }])
        { previous_scene_norc := 0, previous_preview_scene_norc := 0, closing := false,
          transitioning := false }
        []
        { updateType := "SourceRemoved",
          additionalFields := [("sourceName", obs_data_item.string "Cam")] }).1.midiHooks =
        [blank_hook "Note On" 9 0 "Do_Transition",
          { blank_hook "Note On" 2 0 "Toggle_Source_Visibility" with
            scene := "Main", source := "Cam" }] := by
  decide

/-- C29 at an agent with a `Set_Volume` hook for `Mic` and the audio sources
`Desktop Audio`, which has no hook, and `Mic`: with `Desktop Audio` first in
the list no volume message is sent at all, with `Mic` first the one for `Mic`
is sent. -/
theorem set_current_volumes_stops_at_unbound_source :
    feedbacks (set_current_volumes
        [{ blank_hook "Control Change" 7 0 "Set_Volume" with audio_source := "Mic" }]
        [("Desktop Audio", 1), ("Mic", 1)]) = [] ∧
      feedbacks (set_current_volumes
        [{ blank_hook "Control Change" 7 0 "Set_Volume" with audio_source := "Mic" }]
        [("Mic", 1), ("Desktop Audio", 1)]) =
        [Feedback.volume
          { message_type := "Control Change", NORC := 7, channel := 0, value := 0,
            device_name := "" } 1] := by
  decide

/-- C30 at an agent with a recording hook on note 3 and a streaming hook on
note 4: `RecordingStopping` sends "on" for note 3, `StreamStopping` sends
"off" for note 4. -/
theorem handle_obs_event_stopping_differs :
    feedbacks (handle_obs_event
        (sample_agent true
          [blank_hook "Note On" 3 0 "Toggle_Start_Stop_Recording",
            blank_hook "Note On" 4 0 "Toggle_Start_Stop_Streaming"])
        { previous_scene_norc := 0, previous_preview_scene_norc := 0, closing := false,
          transitioning := false }
        [] { updateType := "RecordingStopping", additionalFields := [] }).2.2 =
        [Feedback.on
          { message_type := "Note On", NORC := 3, channel := 0, value := 0, device_name := "" }] ∧
      feedbacks (handle_obs_event
        (sample_agent true
          [blank_hook "Note On" 3 0 "Toggle_Start_Stop_Recording",
            blank_hook "Note On" 4 0 "Toggle_Start_Stop_Streaming"])
        { previous_scene_norc := 0, previous_preview_scene_norc := 0, closing := false,
          transitioning := false }
        [] { updateType := "StreamStopping", additionalFields := [] }).2.2 =
        [Feedback.off
          { message_type := "Note On", NORC := 4, channel := 0, value := 0, device_name := "" }] := by
  decide

/-- C27 as stated fails: an agent holds a `Set_Preview_Scene` hook on note 7
and a `Set_Current_Scene` hook on note 1, both for scene `Main`; a program
scene change to `Main` lights note 7 and records 7 as the tracked scene
index. -/
theorem handle_obs_event_records_preview_hook :
    MidiHook.kind { blank_hook "Note On" 7 0 "Set_Preview_Scene" with scene := "Main" } =
        some .Set_Preview_Scene ∧
      (handle_obs_event
        (sample_agent true
          [{ blank_hook "Note On" 7 0 "Set_Preview_Scene" with scene := "Main" },
            { blank_hook "Note On" 1 0 "Set_Current_Scene" with scene := "Main" }])
        { previous_scene_norc := 0, previous_preview_scene_norc := 0, closing := false,
          transitioning := false }
        []
        { updateType := "SwitchScenes",
          additionalFields := [("scene-name", obs_data_item.string "Main")] }).2 =
        ({ previous_scene_norc := 7, previous_preview_scene_norc := 0, closing := false,
            transitioning := false },
          [Effect.feedback (Feedback.off
              { message_type := "Note On", NORC := 0, channel := 0, value := 0,
                device_name := "" }),
            Effect.feedback (Feedback.on
              { message_type := "Note On", NORC := 7, channel := 0, value := 0,
                device_name := "" })]) := by
  decide

/-! ## Which hook a tracked index comes from: theorems -/

theorem lookup_some_mem {β : Type} (l : List (String × β)) (k : String) (v : β)
    (h : l.lookup k = some v) : (k, v) ∈ l := by
  induction l with
  | nil => simp at h
  | cons e rest ih =>
    obtain ⟨k', v'⟩ := e
    by_cases hk : k = k'
    · subst hk
      simp [List.lookup] at h
      subst h
      exact List.mem_cons_self _ _
    · have hk2 : (k == k') = false := by simpa using hk
      simp only [List.lookup, hk2] at h
      exact List.mem_cons_of_mem _ (ih h)

theorem string_to_event_scene (updateType : String)
    (h : Events.string_to_event updateType = some .SwitchScenes ∨
      Events.string_to_event updateType = some .SceneChanged) :
    updateType = "SwitchScenes" ∨ updateType = "SceneChanged" := by
  rcases h with h | h
  · have := lookup_some_mem _ _ _ h
    simp [Events.names] at this
    exact Or.inl this
  · have := lookup_some_mem _ _ _ h
    simp [Events.names] at this
    exact Or.inr this

theorem string_to_event_preview (updateType : String)
    (h : Events.string_to_event updateType = some .PreviewSceneChanged) :
    updateType = "PreviewSceneChanged" := by
  have := lookup_some_mem _ _ _ h
  simp [Events.names] at this
  exact this

theorem event_found_scene_kind (hook : MidiHook) (event : RpcEvent)
    (hfound : event_found hook event = true)
    (hkind : event.updateType = "SwitchScenes" ∨ event.updateType = "SceneChanged" ∨
      event.updateType = "PreviewSceneChanged") :
    (hook.kind = some .Set_Current_Scene ∨ hook.kind = some .Set_Preview_Scene ∨
        hook.kind = some .Do_Transition) ∧
      hook.scene = obs_data_get_string event.additionalFields "scene-name" := by
  have h1 : event.updateType ≠ "SourceVolumeChanged" := by
    rcases hkind with h | h | h <;> rw [h] <;> decide
  have h2 : event.updateType ≠ "SourceMuteStateChanged" := by
    rcases hkind with h | h | h <;> rw [h] <;> decide
  have h3 : event.updateType ≠ "RecordingStarted" ∧ event.updateType ≠ "RecordingStopped" ∧
      event.updateType ≠ "RecordingStopping" := by
    rcases hkind with h | h | h <;> rw [h] <;> decide
  have h4 : event.updateType ≠ "StreamStarted" ∧ event.updateType ≠ "StreamStopped" ∧
      event.updateType ≠ "StreamStopping" := by
    rcases hkind with h | h | h <;> rw [h] <;> decide
  unfold event_found at hfound
  cases hk : hook.kind with
  | none => simp [hk] at hfound
  | some kind =>
    cases kind <;> simp [hk, h1, h2, h3, h4] at hfound ⊢ <;> exact hfound

theorem handle_hooked_event_scene_index (st : state) (hook : MidiHook) (event : RpcEvent)
    (h : (handle_hooked_event st hook event).1.previous_scene_norc ≠ st.previous_scene_norc) :
    (event.updateType = "SwitchScenes" ∨ event.updateType = "SceneChanged") ∧
      (handle_hooked_event st hook event).1.previous_scene_norc = hook.norc := by
  unfold handle_hooked_event at h ⊢
  cases hk : Events.string_to_event event.updateType with
  | none => simp [hk] at h
  | some kind =>
    cases kind <;> simp only [hk] at h ⊢ <;>
      first
      | exact absurd rfl h
      | exact ⟨string_to_event_scene _ (Or.inl hk), trivial⟩
      | exact ⟨string_to_event_scene _ (Or.inr hk), trivial⟩

theorem handle_hooked_event_preview_index (st : state) (hook : MidiHook) (event : RpcEvent)
    (h : (handle_hooked_event st hook event).1.previous_preview_scene_norc ≠
      st.previous_preview_scene_norc) :
    event.updateType = "PreviewSceneChanged" ∧
      (handle_hooked_event st hook event).1.previous_preview_scene_norc = hook.norc := by
  unfold handle_hooked_event at h ⊢
  cases hk : Events.string_to_event event.updateType with
  | none => simp [hk] at h
  | some kind =>
    cases kind <;> simp only [hk] at h ⊢ <;>
      first
      | exact absurd rfl h
      | exact ⟨string_to_event_preview _ hk, trivial⟩

theorem handle_unhooked_event_indices (self : MidiAgent) (st : state)
    (volumelist : List (String × Rat)) (event : RpcEvent) :
    (handle_unhooked_event self st volumelist event).2.1.previous_scene_norc =
        st.previous_scene_norc ∧
      (handle_unhooked_event self st volumelist event).2.1.previous_preview_scene_norc =
        st.previous_preview_scene_norc := by
  unfold handle_unhooked_event
  cases hk : Events.string_to_event event.updateType with
  | none => exact ⟨rfl, rfl⟩
  | some kind => cases kind <;> exact ⟨rfl, rfl⟩

theorem handle_obs_event_state (self : MidiAgent) (st : state)
    (volumelist : List (String × Rat)) (event : RpcEvent) :
    (handle_obs_event self st volumelist event).2.1 = st ∨
      (∃ hook, get_midi_hook_if_exists event self.midiHooks = some hook ∧
        (handle_obs_event self st volumelist event).2.1 =
          (handle_hooked_event st hook event).1) ∨
      (handle_obs_event self st volumelist event).2.1 =
        (handle_unhooked_event self st volumelist event).2.1 := by
  unfold handle_obs_event
  split
  · exact Or.inl rfl
  · split
    · exact Or.inl rfl
    · cases hm : get_midi_hook_if_exists event self.midiHooks with
      | none => exact Or.inr (Or.inr rfl)
      | some hook => exact Or.inr (Or.inl ⟨hook, rfl, rfl⟩)

theorem get_midi_hook_if_exists_first (event : RpcEvent) (midiHooks : List MidiHook)
    (hook : MidiHook) (h : get_midi_hook_if_exists event midiHooks = some hook) :
    ∃ before after, midiHooks = before ++ hook :: after ∧
      (∀ earlier ∈ before, event_found earlier event = false) ∧
      event_found hook event = true := by
  induction midiHooks with
  | nil => simp [get_midi_hook_if_exists] at h
  | cons first rest ih =>
    by_cases hf : event_found first event = true
    · simp only [get_midi_hook_if_exists, hf, if_true, Option.some.injEq] at h
      subst h
      exact ⟨[], rest, rfl, fun _ hmem => absurd hmem (List.not_mem_nil _), hf⟩
    · simp only [get_midi_hook_if_exists, hf, if_false, Bool.false_eq_true] at h
      obtain ⟨before, after, hsplit, hbefore, hfound⟩ := ih h
      refine ⟨first :: before, after, by rw [hsplit, List.cons_append], ?_, hfound⟩
      intro earlier hmem
      rcases List.mem_cons.mp hmem with hmem | hmem
      · rw [hmem]
        simpa using hf
      · exact hbefore earlier hmem

theorem event_found_of_scene_kind (hook : MidiHook) (event : RpcEvent)
    (hkind : hook.kind = some .Set_Current_Scene ∨ hook.kind = some .Set_Preview_Scene ∨
      hook.kind = some .Do_Transition)
    (hscene : hook.scene = obs_data_get_string event.additionalFields "scene-name") :
    event_found hook event = true := by
  unfold event_found
  rcases hkind with hk | hk | hk <;> simp [hk, hscene]

/-- C27, amended: whenever `handle_obs_event` changes the tracked scene
index, the event is a program-scene change (`SwitchScenes` or `SceneChanged`)
and the new index is the index of the first hook in the agent's sequence whose
kind is `Set_Current_Scene`, `Set_Preview_Scene` or `Do_Transition` and whose
scene is the event's `scene-name`; whenever it changes the tracked
preview-scene index, the event is `PreviewSceneChanged` and the new index is
the index of the first such hook. -/
theorem handle_obs_event_tracked_index_origin (self : MidiAgent) (st : state)
    (volumelist : List (String × Rat)) (event : RpcEvent) :
    ((handle_obs_event self st volumelist event).2.1.previous_scene_norc ≠
          st.previous_scene_norc →
        (event.updateType = "SwitchScenes" ∨ event.updateType = "SceneChanged") ∧
          ∃ before hook after, self.midiHooks = before ++ hook :: after ∧
            (∀ earlier ∈ before,
              ¬((earlier.kind = some .Set_Current_Scene ∨
                    earlier.kind = some .Set_Preview_Scene ∨
                    earlier.kind = some .Do_Transition) ∧
                  earlier.scene = obs_data_get_string event.additionalFields "scene-name")) ∧
            (hook.kind = some .Set_Current_Scene ∨ hook.kind = some .Set_Preview_Scene ∨
                hook.kind = some .Do_Transition) ∧
              hook.scene = obs_data_get_string event.additionalFields "scene-name" ∧
              (handle_obs_event self st volumelist event).2.1.previous_scene_norc = hook.norc) ∧
      ((handle_obs_event self st volumelist event).2.1.previous_preview_scene_norc ≠
          st.previous_preview_scene_norc →
        event.updateType = "PreviewSceneChanged" ∧
          ∃ before hook after, self.midiHooks = before ++ hook :: after ∧
            (∀ earlier ∈ before,
              ¬((earlier.kind = some .Set_Current_Scene ∨
                    earlier.kind = some .Set_Preview_Scene ∨
                    earlier.kind = some .Do_Transition) ∧
                  earlier.scene = obs_data_get_string event.additionalFields "scene-name")) ∧
            (hook.kind = some .Set_Current_Scene ∨ hook.kind = some .Set_Preview_Scene ∨
                hook.kind = some .Do_Transition) ∧
              hook.scene = obs_data_get_string event.additionalFields "scene-name" ∧
              (handle_obs_event self st volumelist event).2.1.previous_preview_scene_norc =
                hook.norc) := by
  rcases handle_obs_event_state self st volumelist event with hs | ⟨hook, hm, hs⟩ | hs
  · rw [hs]
    exact ⟨fun h => absurd rfl h, fun h => absurd rfl h⟩
  · rw [hs]
    obtain ⟨before, after, hsplit, hbefore, hfound⟩ :=
      get_midi_hook_if_exists_first event self.midiHooks hook hm
    have hearlier : ∀ earlier ∈ before,
        ¬((earlier.kind = some .Set_Current_Scene ∨ earlier.kind = some .Set_Preview_Scene ∨
              earlier.kind = some .Do_Transition) ∧
            earlier.scene = obs_data_get_string event.additionalFields "scene-name") := by
      intro earlier hmem hfam
      have h1 := event_found_of_scene_kind earlier event hfam.1 hfam.2
      rw [hbefore earlier hmem] at h1
      exact absurd h1 (by decide)
    constructor
    · intro h
      obtain ⟨hkind, hnorc⟩ := handle_hooked_event_scene_index st hook event h
      have hfam := event_found_scene_kind hook event hfound
        (hkind.elim Or.inl fun h => Or.inr (Or.inl h))
      exact ⟨hkind, before, hook, after, hsplit, hearlier, hfam.1, hfam.2, hnorc⟩
    · intro h
      obtain ⟨hkind, hnorc⟩ := handle_hooked_event_preview_index st hook event h
      have hfam := event_found_scene_kind hook event hfound (Or.inr (Or.inr hkind))
      exact ⟨hkind, before, hook, after, hsplit, hearlier, hfam.1, hfam.2, hnorc⟩
  · rw [hs]
    have hu := handle_unhooked_event_indices self st volumelist event
    exact ⟨fun h => absurd hu.1 h, fun h => absurd hu.2 h⟩

/-- C27, amended, at an agent with a `Do_Transition` hook on note 6 and a
`Set_Current_Scene` hook on note 2, both for scene `Main`, and a program-scene
change to `Main`: the tracked scene index changes from 0 to the index of the
first of the two. -/
theorem handle_obs_event_tracked_index_origin_witness :
    (handle_obs_event
        (sample_agent true
          [{ blank_hook "Note On" 6 0 "Do_Transition" with scene := "Main" },
            { blank_hook "Note On" 2 0 "Set_Current_Scene" with scene := "Main" }])
        { previous_scene_norc := 0, previous_preview_scene_norc := 0, closing := false,
          transitioning := false }
        []
        { updateType := "SwitchScenes",
          additionalFields :=
            [("scene-name", obs_data_item.string "Main")] }).2.1.previous_scene_norc ≠ 0 ∧
      ∃ before hook after,
        [{ blank_hook "Note On" 6 0 "Do_Transition" with scene := "Main" },
            { blank_hook "Note On" 2 0 "Set_Current_Scene" with scene := "Main" }] =
          before ++ hook :: after ∧
        (∀ earlier ∈ before,
          ¬((earlier.kind = some .Set_Current_Scene ∨ earlier.kind = some .Set_Preview_Scene ∨
                earlier.kind = some .Do_Transition) ∧
              earlier.scene = "Main")) ∧
        (hook.kind = some .Set_Current_Scene ∨ hook.kind = some .Set_Preview_Scene ∨
            hook.kind = some .Do_Transition) ∧
          hook.scene = "Main" ∧
          (handle_obs_event
            (sample_agent true
              [{ blank_hook "Note On" 6 0 "Do_Transition" with scene := "Main" },
                { blank_hook "Note On" 2 0 "Set_Current_Scene" with scene := "Main" }])
            { previous_scene_norc := 0, previous_preview_scene_norc := 0, closing := false,
              transitioning := false }
            []
            { updateType := "SwitchScenes",
              additionalFields :=
                [("scene-name", obs_data_item.string "Main")] }).2.1.previous_scene_norc =
            hook.norc :=
  ⟨by decide,
    ((handle_obs_event_tracked_index_origin
      (sample_agent true
        [{ blank_hook "Note On" 6 0 "Do_Transition" with scene := "Main" },
          { blank_hook "Note On" 2 0 "Set_Current_Scene" with scene := "Main" }])
      { previous_scene_norc := 0, previous_preview_scene_norc := 0, closing := false,
        transitioning := false }
      []
      { updateType := "SwitchScenes",
        additionalFields := [("scene-name", obs_data_item.string "Main")] }).1 (by decide)).2⟩

end ObsMidi
